import Mathlib

/-!
Shallow embedding of the gmaps-scraper repository (a Google-Maps business
scraper) for checking its natural-language specification.

The embedding covers the pure/control-flow core of the code:

* `BaseScraper.parse_address` / `ImprovedScraper.parse_address`
  (`src/scraper.py` and `src/improved_scraper.py`) together with faithful
  character-level implementations of the two Python regexes they use
  (`\b(\d{5})\b$` resp. `\b(\d{5})(?:-\d{4})?\b` for the search, and the
  trailing `", ST ZIP[-ZIP4]"` patterns for `re.sub`).
* the field extraction `extract_business_info` of both scraper variants over
  an abstract read-only document view (selectors become lookups into the
  view), including the reviews-summary synthesis;
* the `(name, full_address)` deduplication performed while appending records;
* the `scroll_results` reveal loops of both variants;
* the WebDriverException retry loop of `ImprovedScraper.search_locations`;
* the exit-code logic of `enhanced_test_runner.run_enhanced_scraper`
  together with `ScraperConfig.validate`;
* `dedupe_records` of `src/test/dmv_maps_scraper.py`.

Modelling conventions: Python strings are `String`/`List Char`; the regex
character classes `\d`, `\s`, `\w`, `[A-Z]` are modelled by `Char.isDigit`,
`Char.isWhitespace`, `isWordChar`, `Char.isUpper` (ASCII reading; Python's
unicode-wide classes agree on every input exercised here); Python's `$`
matches at the end of the string or just before a final newline, which the
embedding reproduces.  `str.strip()` is `pyStrip` / `pyStripS` (an
explicit executable both-ends whitespace trim).  A Python dict of
extracted fields is an association list `List (String × PyVal)` in insertion
order, where `PyVal` distinguishes string values from integer values (the
base scraper stores `photo_count` as an `int`).
-/

namespace GMaps

/-- A Python value stored in a `business_data` dict: the scrapers store
strings everywhere except `photo_count`, which `src/scraper.py` stores as an
`int`. -/
inductive PyVal where
  | str (s : String)
  | int (n : Nat)
deriving DecidableEq, Repr

/-- Whether a dict value is a Python string. -/
def PyVal.isStr : PyVal → Bool
  | .str _ => true
  | .int _ => false

/-- Python `str.strip()` on character lists: drop whitespace at both ends. -/
def pyStrip (l : List Char) : List Char :=
  ((l.dropWhile Char.isWhitespace).reverse.dropWhile Char.isWhitespace).reverse

/-- Python `str.strip()` on strings. -/
def pyStripS (s : String) : String :=
  String.mk (pyStrip s.data)

/-- Python's `\w` (word character), ASCII reading: letter, digit or `_`. -/
def isWordChar (c : Char) : Bool :=
  c.isAlphanum || c = '_'

/-- `sub in s` for Python strings, on character lists:
is `sub` a contiguous substring? -/
def hasSubstr (sub : List Char) : List Char → Bool
  | [] => decide (sub = [])
  | c :: cs => sub.isPrefixOf (c :: cs) || hasSubstr sub cs

/-- `s.split(sub, 1)[0]` for Python strings: the prefix of the list strictly
before the first occurrence of `sub` (the whole list if `sub` never occurs). -/
def splitBefore (sub : List Char) : List Char → List Char
  | [] => []
  | c :: cs => if sub.isPrefixOf (c :: cs) then [] else c :: splitBefore sub cs

/-! ## The postal-code regexes

`src/scraper.py` compiles `\b(\d{5})\b$` and strips a trailing
`,\s*[A-Z]{2}\s*\d{5}$`; `src/improved_scraper.py` compiles
`\b(\d{5})(?:-\d{4})?\b` and strips a trailing
`,\s*[A-Z]{2}\s*\d{5}(?:-\d{4})?\s*$`.  Each regex is implemented directly,
following Python's leftmost-match, greedy-with-backtracking semantics
(worked out per pattern; the disjoint character classes make every pattern
below deterministic except for the optional `(?:-\d{4})?`, whose failure
falls back to the five-digit match because `-` is a non-word character). -/

/-- Core of `re.search(r"\b(\d{5})\b$", s)` anchored at the very end of
`t`: the match exists iff `t` ends in exactly five digits preceded by the
start of the string or a non-word character (the `\b` after the digits
always holds at the anchor); the returned group is those five digits. -/
def zipEndCore (t : List Char) : Option (List Char) :=
  match t.reverse with
  | d1 :: d2 :: d3 :: d4 :: d5 :: rest =>
    if d1.isDigit && d2.isDigit && d3.isDigit && d4.isDigit && d5.isDigit
        && (match rest with
            | [] => true
            | c :: _ => !isWordChar c) then
      some [d5, d4, d3, d2, d1]
    else
      none
  | _ => none

/-- `re.search(r"\b(\d{5})\b$", s)` (base scraper): Python's `$` matches at
the end of the string or just before one final newline, so the core check
runs on `s` or on `s` without that newline. -/
def searchZipEnd (s : List Char) : Option (List Char) :=
  if s.reverse.head? = some '\n' then zipEndCore s.dropLast else zipEndCore s

/-- Does the list start with `,\s*[A-Z]{2}\s*\d{5}` followed by the end of
the string (Python `$`: possibly one final newline)?  This is the anchored
tail of the base scraper's `re.sub(r',\s*[A-Z]{2}\s*\d{5}$', '', address)`. -/
def stateZipTailBase (l : List Char) : Bool :=
  match l with
  | ',' :: rest =>
    match rest.dropWhile Char.isWhitespace with
    | a :: b :: r2 =>
      if a.isUpper && b.isUpper then
        match r2.dropWhile Char.isWhitespace with
        | d1 :: d2 :: d3 :: d4 :: d5 :: r4 =>
          d1.isDigit && d2.isDigit && d3.isDigit && d4.isDigit && d5.isDigit
            && (r4 = [] || r4 = ['\n'])
        | _ => false
      else false
    | _ => false
  | _ => false

/-- Does the list start with `,\s*[A-Z]{2}\s*\d{5}(?:-\d{4})?\s*$`?  Anchored
tail of the improved scraper's state+ZIP `re.sub`; `\s*$` succeeds exactly
when the remainder is all whitespace. -/
def stateZipTailImproved (l : List Char) : Bool :=
  match l with
  | ',' :: rest =>
    match rest.dropWhile Char.isWhitespace with
    | a :: b :: r2 =>
      if a.isUpper && b.isUpper then
        match r2.dropWhile Char.isWhitespace with
        | d1 :: d2 :: d3 :: d4 :: d5 :: r4 =>
          d1.isDigit && d2.isDigit && d3.isDigit && d4.isDigit && d5.isDigit
            && (match r4 with
                | '-' :: e1 :: e2 :: e3 :: e4 :: r5 =>
                  e1.isDigit && e2.isDigit && e3.isDigit && e4.isDigit
                    && r5.all Char.isWhitespace
                | _ => r4.all Char.isWhitespace)
        | _ => false
      else false
    | _ => false
  | _ => false

/-- `re.sub(pat, '', address)` for an end-anchored pattern recognised by
`tail`: delete from the leftmost position whose suffix matches `tail`
(the rest of the string is inside the match, hence deleted). -/
def subTail (tail : List Char → Bool) : List Char → List Char
  | [] => []
  | c :: cs => if tail (c :: cs) then [] else c :: subTail tail cs

/-- One attempt of `\b(\d{5})(?:-\d{4})?\b` at the current position (the
preceding boundary has already been checked): five digits, then greedily the
optional `-\d{4}` provided a word boundary follows it; if the optional part
fails its trailing boundary the engine backtracks to the bare five digits,
whose boundary at `-` (a non-word character) always holds. -/
def matchPostalAt (l : List Char) : Option (List Char) :=
  match l with
  | d1 :: d2 :: d3 :: d4 :: d5 :: rest =>
    if d1.isDigit && d2.isDigit && d3.isDigit && d4.isDigit && d5.isDigit then
      match rest with
      | [] => some [d1, d2, d3, d4, d5]
      | c :: rs =>
        if c = '-' then
          match rs with
          | e1 :: e2 :: e3 :: e4 :: rest2 =>
            if e1.isDigit && e2.isDigit && e3.isDigit && e4.isDigit
                && (match rest2 with
                    | [] => true
                    | c2 :: _ => !isWordChar c2) then
              some [d1, d2, d3, d4, d5, '-', e1, e2, e3, e4]
            else
              some [d1, d2, d3, d4, d5]
          | _ => some [d1, d2, d3, d4, d5]
        else if isWordChar c then none
        else some [d1, d2, d3, d4, d5]
    else none
  | _ => none

/-- `re.search(r"\b(\d{5})(?:-\d{4})?\b", s)` (improved scraper): scan left
to right; a match may start wherever the previous character is not a word
character (`\b` before a digit). -/
def scanPostal (prevIsWord : Bool) : List Char → Option (List Char)
  | [] => none
  | c :: cs =>
    match (if prevIsWord then none else matchPostalAt (c :: cs)) with
    | some m => some m
    | none => scanPostal (isWordChar c) cs

/-! ## Rating / review-count regexes used by `extract_business_info` -/

/-- `re.search(r'(\d+\.?\d*)', s)` (improved scraper, rating from an
aria-label): at the leftmost digit take the digit run, then greedily an
optional `.` followed by a digit run.  Nothing follows the group, so greedy
matching never backtracks. -/
def decimalAt (l : List Char) : List Char :=
  let ds := l.takeWhile Char.isDigit
  match l.drop ds.length with
  | '.' :: r2 => ds ++ '.' :: r2.takeWhile Char.isDigit
  | _ => ds

/-- Leftmost-match scan for `(\d+\.?\d*)`. -/
def searchDecimal : List Char → Option (List Char)
  | [] => none
  | c :: cs => if c.isDigit then some (decimalAt (c :: cs)) else searchDecimal cs

/-- The `(?:,\d{3})*` repetitions of the improved scraper's review-count
regex: greedily consume `,` followed by exactly three digits. -/
def commaTriples : List Char → List Char
  | ',' :: a :: b :: c :: rest =>
    if a.isDigit && b.isDigit && c.isDigit then
      ',' :: a :: b :: c :: commaTriples rest
    else []
  | _ => []

/-- One match of `(\d{1,3}(?:,\d{3})*|\d+)` at a digit position (improved
scraper): the first alternative always succeeds at a digit, taking at most
three digits then greedy comma-triples, so the `\d+` alternative is dead
code. -/
def thousandsAt (l : List Char) : List Char :=
  let ds := (l.takeWhile Char.isDigit).take 3
  ds ++ commaTriples (l.drop ds.length)

/-- Leftmost-match scan for `(\d{1,3}(?:,\d{3})*|\d+)`. -/
def searchThousands : List Char → Option (List Char)
  | [] => none
  | c :: cs => if c.isDigit then some (thousandsAt (c :: cs)) else searchThousands cs

/-- The `(?:,\d+)*` repetitions of the base scraper's review-count regex:
greedily consume `,` followed by a nonempty digit run. -/
def commaRuns : List Char → List Char
  | [] => []
  | ',' :: rest =>
    let ds := rest.takeWhile Char.isDigit
    if ds = [] then [] else ',' :: ds ++ commaRuns (rest.drop ds.length)
  | _ :: _ => []
termination_by l => l.length
decreasing_by
  simp only [List.length_cons, List.length_drop]
  omega

/-- One match of `(\d+(?:,\d+)*)` at a digit position (base scraper). -/
def numCommaAt (l : List Char) : List Char :=
  let ds := l.takeWhile Char.isDigit
  ds ++ commaRuns (l.drop ds.length)

/-- Leftmost-match scan for `(\d+(?:,\d+)*)`. -/
def searchNumComma : List Char → Option (List Char)
  | [] => none
  | c :: cs => if c.isDigit then some (numCommaAt (c :: cs)) else searchNumComma cs

/-- `re.match(r'^\d+\.?\d*$', s)` (base scraper, rating text validation):
the whole string (up to Python's `$`, i.e. possibly one final newline) is a
nonempty digit run, optionally followed by `.` and a digit run. -/
def matchesDecimalFull (l : List Char) : Bool :=
  let ds := l.takeWhile Char.isDigit
  if ds = [] then false
  else
    match l.drop ds.length with
    | [] => true
    | ['\n'] => true
    | '.' :: r2 =>
      match r2.drop (r2.takeWhile Char.isDigit).length with
      | [] => true
      | ['\n'] => true
      | _ => false
    | _ => false

/-- The `\s*star` tail of the base scraper's aria-label rating regex:
`star` contains no whitespace, so only the maximal whitespace run can
precede it. -/
def starCheck (l : List Char) : Bool :=
  ([ 's', 't', 'a', 'r' ] : List Char).isPrefixOf (l.dropWhile Char.isWhitespace)

/-- One attempt of `(\d+\.?\d*)\s*star` at a position (base scraper):
the engine tries the dotted consumptions first (fractional digit run from
longest to shortest), then the bare digit runs from longest to shortest. -/
def ratingStarAt (l : List Char) : Option (List Char) :=
  let ds := l.takeWhile Char.isDigit
  if ds = [] then none
  else
    let dotted : Option (List Char) :=
      match l.drop ds.length with
      | '.' :: r2 =>
        let fs := r2.takeWhile Char.isDigit
        (List.range (fs.length + 1)).findSome? fun i =>
          let b := fs.length - i
          if starCheck (r2.drop b) then some (ds ++ '.' :: fs.take b) else none
      | _ => none
    match dotted with
    | some m => some m
    | none =>
      (List.range ds.length).findSome? fun i =>
        let t := ds.length - i
        if starCheck (l.drop t) then some (ds.take t) else none

/-- Leftmost-match scan for `(\d+\.?\d*)\s*star` (applied to the lowercased
aria-label). -/
def searchRatingStar : List Char → Option (List Char)
  | [] => none
  | c :: cs =>
    match ratingStarAt (c :: cs) with
    | some m => some m
    | none => searchRatingStar cs

/-- Python's `str.lower()`, ASCII reading. -/
def lowerList (l : List Char) : List Char :=
  l.map Char.toLower

/-! ## The abstract document view

`extract_business_info` only reads the loaded detail page through
`find_element` (text and attributes), the page title, the current URL and
one `find_elements` count.  A `DocView` packages those read-only queries:
`css sel = none` models `find_element` raising `NoSuchElementException`,
`attr name = none` models `get_attribute` returning `None`. -/

/-- A located DOM element: its (raw) text and its attributes. -/
structure Elem where
  text : String
  attr : String → Option String

/-- Read-only view of the loaded business-detail document. -/
structure DocView where
  css : String → Option Elem
  xpath : String → Option Elem
  title : String
  currentUrl : String
  /-- `len(find_elements('[data-photo-index]'))`; `none` models the driver
  raising inside the `try`, which both variants turn into a zero count. -/
  photoIdxCount : Option Nat

/-- An ordered-fallback selector loop of the form
`for sel in sels: try element; text = el.text.strip(); if text: take it` —
the first selector with a located element and nonempty stripped text wins. -/
def firstTextHit (d : DocView) (sels : List String) : Option String :=
  sels.findSome? fun sel =>
    match d.css sel with
    | some el =>
      if pyStripS el.text ≠ "" then some (pyStripS el.text) else none
    | none => none

/-- Python `str.isdigit()`: nonempty and all digits (ASCII reading). -/
def pyIsDigit (l : List Char) : Bool :=
  !l.isEmpty && l.all Char.isDigit

/-- The `' - Google Maps'` marker used by both variants' page-title
fallback for the business name. -/
def gmapsMarker : List Char :=
  (" - Google Maps").data

/-- `_process_single_result` / `search_locations` attach the search context
to the freshly extracted dict: `business_data['search_query'] = query;
business_data['search_area'] = area`. -/
def finishRecord (rec : List (String × PyVal)) (query area : String) :
    List (String × PyVal) :=
  rec ++ [("search_query", .str query), ("search_area", .str area)]

/-- The deduplication identifier:
`(business_data.get('name', ''), business_data.get('full_address', ''))`. -/
def identifierOf (rec : List (String × PyVal)) : PyVal × PyVal :=
  ((rec.lookup "name").getD (.str ""), (rec.lookup "full_address").getD (.str ""))

/-- The run-long mutable state of a scraper: `self.results` and
`self._seen_identifiers`. -/
structure ScrapeState where
  results : List (List (String × PyVal))
  seen : List (PyVal × PyVal)
deriving DecidableEq, Repr

/-- One record reaching the dedup-and-append step (both variants,
`src/scraper.py:183-190` and `src/improved_scraper.py:207-215`):
`if identifier not in self._seen_identifiers: add(identifier);
results.append(business_data)`. -/
def processRecord (st : ScrapeState) (rec : List (String × PyVal)) : ScrapeState :=
  if identifierOf rec ∈ st.seen then st
  else ⟨st.results ++ [rec], identifierOf rec :: st.seen⟩

/-- A whole run of extracted records through the dedup-and-append step,
starting from the fresh state of `__init__`. -/
def processAll (recs : List (List (String × PyVal))) : ScrapeState :=
  recs.foldl processRecord ⟨[], []⟩

end GMaps

namespace BaseScraper

open GMaps

/-- `GoogleMapsScraper.parse_address` of `src/scraper.py`: search the
pre-compiled `\b(\d{5})\b$`; on a match, `postal_code` is `group(1)` and the
street is the address with a trailing `,\s*[A-Z]{2}\s*\d{5}$` removed and
stripped; otherwise `postal_code = "N/A"` and the street is the raw input. -/
def parse_address (address : String) : List (String × String) :=
  match searchZipEnd address.data with
  | some zip =>
    [("postal_code", String.mk zip),
     ("street", pyStripS (String.mk (subTail stateZipTailBase address.data)))]
  | none => [("postal_code", "N/A"), ("street", address)]

/-- Business name (`src/scraper.py:358-374`): the `h1` text (whose absence
makes the surrounding `WebDriverWait` raise, see `extract_business_info`),
else the `h1 .DUwDvf` text, else the page-title prefix before
`' - Google Maps'`; an empty string survives every fallback. -/
def nameField (d : DocView) (h1 : Elem) : String :=
  let t1 := pyStripS h1.text
  let t2 :=
    if t1 = "" then
      match d.css "h1 .DUwDvf" with
      | some el => pyStripS el.text
      | none => t1
    else t1
  if t2 = "" then
    if d.title ≠ "" && hasSubstr gmapsMarker d.title.data then
      pyStripS (String.mk (splitBefore gmapsMarker d.title.data))
    else t2
  else t2

/-- Address element (`src/scraper.py:377-389`): primary selector, then the
sibling-div fallback. -/
def addressElem (d : DocView) : Option Elem :=
  match d.css "[data-item-id=\"address\"] .fontBodyMedium" with
  | some el => some el
  | none => d.css "button[data-item-id=\"address\"] ~ div .fontBodyMedium"

/-- Phone (`src/scraper.py:401-407`): single selector, stripped text,
else `"N/A"`. -/
def phoneField (d : DocView) : String :=
  match d.css "[data-item-id*=\"phone\"] .fontBodyMedium" with
  | some el => pyStripS el.text
  | none => "N/A"

/-- Website (`src/scraper.py:410-416`): `get_attribute('href') or 'N/A'`. -/
def websiteField (d : DocView) : String :=
  match d.css "[data-item-id=\"authority\"] .fontBodyMedium a" with
  | some el =>
    match el.attr "href" with
    | some href => if href ≠ "" then href else "N/A"
    | none => "N/A"
  | none => "N/A"

/-- Rating selector chain of `src/scraper.py:423-428`. -/
def ratingSelectors : List String :=
  [".fontDisplayLarge",
   "span[role=\"img\"][aria-label*=\"star\"]",
   ".F7nice span:first-child",
   "[jsaction*=\"review\"] span[role=\"img\"]"]

/-- Rating (`src/scraper.py:419-449`): first selector whose stripped text
fully matches `^\d+\.?\d*$`, else whose lowercased aria-label contains
`(\d+\.?\d*)\s*star`; `"N/A"` when every selector fails. -/
def ratingField (d : DocView) : String :=
  (ratingSelectors.findSome? fun sel =>
    match d.css sel with
    | some el =>
      let t := pyStripS el.text
      if t ≠ "" && matchesDecimalFull t.data then some t
      else
        let aria := (el.attr "aria-label").getD ""
        if aria ≠ "" then (searchRatingStar (lowerList aria.data)).map String.mk
        else none
    | none => none).getD "N/A"

/-- Review-count selector chain of `src/scraper.py:452-457`. -/
def reviewSelectors : List String :=
  [".fontBodyMedium .fontBodySmall",
   "button[aria-label*=\"review\"] .fontBodySmall",
   ".F7nice .fontBodySmall",
   "[jsaction*=\"review\"] span"]

/-- Review count (`src/scraper.py:451-471`): first selector whose text
contains `(\d+(?:,\d+)*)`; `"N/A"` otherwise. -/
def reviewCountField (d : DocView) : String :=
  (reviewSelectors.findSome? fun sel =>
    (d.css sel).bind fun el =>
      (searchNumComma (pyStrip el.text.data)).map String.mk).getD "N/A"

/-- Reviews summary (`src/scraper.py:477-484`): four message shapes chosen
by which of rating / review count were found. -/
def reviewsSummary (rating reviewCount : String) : String :=
  if rating ≠ "N/A" && reviewCount ≠ "N/A" then
    rating ++ " stars (" ++ reviewCount ++ " reviews)"
  else if rating ≠ "N/A" then rating ++ " stars"
  else if reviewCount ≠ "N/A" then "(" ++ reviewCount ++ " reviews)"
  else "N/A"

/-- The `while True` body of `GoogleMapsScraper.scroll_results` of
`src/scraper.py:273-307`, driven by the successive tile counts the loop
observes (`obs`): break when the count reaches `maxToLoad`; otherwise bump
or reset `stagnant_rounds` and break when it reaches
`max_stagnant_rounds = 4`; otherwise issue a scroll.  Returns the number of
scrolls issued, `none` when the observation list runs out before the loop
breaks. -/
def scrollLoop (maxToLoad : Nat) : List Nat → Nat → Nat → Option Nat
  | [], _, _ => none
  | count :: rest, prevCount, stagnantRounds =>
    if count ≥ maxToLoad then some 0
    else
      let stagnant := if count = prevCount then stagnantRounds + 1 else 0
      if stagnant ≥ 4 then some 0
      else (scrollLoop maxToLoad rest count stagnant).map (· + 1)

/-- `scroll_results` starts from `prev_count = 0`, `stagnant_rounds = 0`. -/
def scroll_results (maxToLoad : Nat) (obs : List Nat) : Option Nat :=
  scrollLoop maxToLoad obs 0 0

/-- `GoogleMapsScraper.extract_business_info` of `src/scraper.py:353-500`:
`none` models the initial `WebDriverWait` for `h1` timing out, which the
outer `except` turns into `return None`; otherwise every field is assigned.
`photo_count` is stored as a Python `int`
(`business_data['photo_count'] = len(photo_elements)`), every other field
as a string.  (Dict insertion order is irrelevant to the lookups below; the
association list groups the address-derived fields together.) -/
def extract_business_info (d : DocView) : Option (List (String × PyVal)) :=
  (d.css "h1").map fun h1 =>
    let addrFields : List (String × PyVal) :=
      match addressElem d with
      | some el =>
        let full := pyStripS el.text
        ("full_address", .str full) ::
          (parse_address full).map fun p => (p.1, PyVal.str p.2)
      | none =>
        [("full_address", .str "N/A"), ("street", .str "N/A"),
         ("postal_code", .str "N/A")]
    let rating := ratingField d
    let reviewCount := reviewCountField d
    ("name", PyVal.str (nameField d h1)) :: addrFields ++
      [("phone", .str (phoneField d)),
       ("website", .str (websiteField d)),
       ("rating", .str rating),
       ("review_count", .str reviewCount),
       ("reviews", .str (reviewsSummary rating reviewCount)),
       ("photo_count", .int (d.photoIdxCount.getD 0)),
       ("location_link", .str d.currentUrl)]

end BaseScraper

namespace ImprovedScraper

open GMaps

/-- `GoogleMapsScraper.parse_address` of `src/improved_scraper.py`: search
the pre-compiled `\b(\d{5})(?:-\d{4})?\b`; on a match, `postal_code` is
`group(0)` (the whole token, a `-\d{4}` suffix included) and the street is
the address with a trailing `,\s*[A-Z]{2}\s*\d{5}(?:-\d{4})?\s*$` removed
and stripped; otherwise `postal_code = "N/A"` and the street is the raw
input. -/
def parse_address (address : String) : List (String × String) :=
  match scanPostal false address.data with
  | some tok =>
    [("postal_code", String.mk tok),
     ("street", pyStripS (String.mk (subTail stateZipTailImproved address.data)))]
  | none => [("postal_code", "N/A"), ("street", address)]

/-- Name selector chain of `src/improved_scraper.py:351-355`. -/
def nameSelectors : List String :=
  ["h1 span", "h1", "[role=\"main\"] h1"]

/-- Business name (`src/improved_scraper.py:349-378`): first selector with
nonempty stripped text, else the page-title prefix before
`' - Google Maps'`, else the literal `'Unknown'`. -/
def nameField (d : DocView) : String :=
  match firstTextHit d nameSelectors with
  | some t => t
  | none =>
    if d.title ≠ "" && hasSubstr gmapsMarker d.title.data then
      pyStripS (String.mk (splitBefore gmapsMarker d.title.data))
    else "Unknown"

/-- Address selector chain of `src/improved_scraper.py:381-386`. -/
def addressSelectors : List String :=
  ["[data-item-id=\"address\"] .fontBodyMedium",
   "button[data-item-id=\"address\"] span[class*=\"fontBody\"]",
   "[data-value=\"Address\"]",
   "button[aria-label*=\"Address\"]"]

/-- Phone selector chain of `src/improved_scraper.py:409-413`. -/
def phoneSelectors : List String :=
  ["[data-item-id*=\"phone\"] .fontBodyMedium",
   "button[data-item-id*=\"phone\"] span[class*=\"fontBody\"]",
   "button[aria-label*=\"Phone\"]"]

/-- Website selector chain of `src/improved_scraper.py:433-438`. -/
def websiteSelectors : List String :=
  ["[data-item-id=\"authority\"] a",
   "a[data-value*=\"website\"]",
   "a[aria-label*=\"Website\"]",
   "a[href]:not([href*=\"google.com\"]):not([href*=\"maps\"])"]

/-- Website (`src/improved_scraper.py:440-455`): first selector with a
non-`None`, nonempty `href` not containing `'google.com'`. -/
def websiteField (d : DocView) : String :=
  (websiteSelectors.findSome? fun sel =>
    match d.css sel with
    | some el =>
      match el.attr "href" with
      | some href =>
        if href ≠ "" && !hasSubstr ("google.com").data href.data then some href
        else none
      | none => none
    | none => none).getD "N/A"

/-- Rating selector chain of `src/improved_scraper.py:460-464`. -/
def ratingSelectors : List String :=
  [".fontDisplayLarge",
   "span[role=\"img\"][aria-label*=\"stars\"]",
   ".F7nice span"]

/-- Rating (`src/improved_scraper.py:466-485`): first selector whose
stripped text, with `.` and `,` removed, satisfies `isdigit()`, else whose
aria-label contains `(\d+\.?\d*)`; `"N/A"` when every selector fails. -/
def ratingField (d : DocView) : String :=
  (ratingSelectors.findSome? fun sel =>
    match d.css sel with
    | some el =>
      let t := pyStripS el.text
      if t ≠ "" && pyIsDigit (t.data.filter fun c => c ≠ '.' && c ≠ ',') then
        some t
      else
        match el.attr "aria-label" with
        | some aria =>
          if aria ≠ "" then (searchDecimal aria.data).map String.mk else none
        | none => none
    | none => none).getD "N/A"

/-- Review-count CSS selector chain of `src/improved_scraper.py:491-494`. -/
def reviewSelectors : List String :=
  [".F7nice .fontBodySmall", "button[aria-label*=\"reviews\"]"]

/-- The XPath used by the review-count fallback of
`src/improved_scraper.py:511`. -/
def reviewXPath : String :=
  "//span[contains(translate(., \x27REVIEWS\x27, \x27reviews\x27), \x27reviews\x27)]"

/-- Review count (`src/improved_scraper.py:488-517`): first CSS selector
whose stripped text contains `(\d{1,3}(?:,\d{3})*|\d+)`, else the XPath
fallback with the same regex; `"N/A"` otherwise. -/
def reviewCountField (d : DocView) : String :=
  match reviewSelectors.findSome? fun sel =>
      (d.css sel).bind fun el =>
        (searchThousands (pyStrip el.text.data)).map String.mk with
  | some rc => rc
  | none =>
    match d.xpath reviewXPath with
    | some el => ((searchThousands (pyStrip el.text.data)).map String.mk).getD "N/A"
    | none => "N/A"

/-- Reviews summary (`src/improved_scraper.py:522-525`): a single combined
shape whenever either the rating or the review count was found — the other
value is embedded verbatim, `'N/A'` included. -/
def reviewsSummary (rating reviewCount : String) : String :=
  if rating ≠ "N/A" || reviewCount ≠ "N/A" then
    rating ++ " stars (" ++ reviewCount ++ " reviews)"
  else "N/A"

/-- The `while True` body of `GoogleMapsScraper.scroll_results` of
`src/improved_scraper.py:261-299`, driven by the successive tile counts the
loop observes: break when the count reaches `maxToLoad` or
`stagnant_rounds` (updated after the break check) has reached 3; otherwise
issue a scroll.  Returns the number of scrolls issued, `none` when the
observation list runs out first. -/
def scrollLoop (maxToLoad : Nat) : List Nat → Nat → Nat → Option Nat
  | [], _, _ => none
  | count :: rest, prevCount, stagnantRounds =>
    if count ≥ maxToLoad || stagnantRounds ≥ 3 then some 0
    else
      let stagnant := if count = prevCount then stagnantRounds + 1 else 0
      (scrollLoop maxToLoad rest count stagnant).map (· + 1)

/-- `scroll_results` starts from `prev_count = 0`, `stagnant_rounds = 0`. -/
def scroll_results (maxToLoad : Nat) (obs : List Nat) : Option Nat :=
  scrollLoop maxToLoad obs 0 0

/-- Outcome of one `_perform_search(query, area)` call as seen by the retry
loop of `search_locations`: it either returns normally or raises a
`WebDriverException` (other exception types would propagate and are outside
this claim's scope). -/
inductive AttemptOutcome where
  | ok
  | wdError
deriving DecidableEq, Repr

/-- What one `search_locations(query, area)` call did. -/
structure TaskReport where
  /-- how many `_perform_search` attempts ran -/
  attempts : Nat
  /-- how many `_restart_driver()` calls ran -/
  restarts : Nat
  /-- how many `time.sleep(3)` inter-attempt delays ran -/
  delays : Nat
  /-- the task completed a `_perform_search` -/
  succeeded : Bool
  /-- an exception escaped `search_locations` -/
  raised : Bool
deriving DecidableEq, Repr

/-- The `for attempt in range(max_retries)` loop of
`GoogleMapsScraper.search_locations` (`src/improved_scraper.py:88-102`):
on success break; on `WebDriverException`, restart the driver and delay
when further attempts remain, else print a failure message and fall out of
the loop without re-raising.  `fuel` is the number of loop iterations left
(`max_retries - attempt`). -/
def retryGo (perform : Nat → AttemptOutcome) (maxRetries : Nat) :
    Nat → Nat → TaskReport
  | 0, _ => ⟨0, 0, 0, false, false⟩
  | fuel + 1, attempt =>
    match perform attempt with
    | .ok => ⟨1, 0, 0, true, false⟩
    | .wdError =>
      if attempt < maxRetries - 1 then
        let r := retryGo perform maxRetries fuel (attempt + 1)
        ⟨r.attempts + 1, r.restarts + 1, r.delays + 1, r.succeeded, r.raised⟩
      else ⟨1, 0, 0, false, false⟩

/-- `search_locations` with its hard-coded `max_retries = 3`. -/
def search_locations (perform : Nat → AttemptOutcome) : TaskReport :=
  retryGo perform 3 3 0

/-- `GoogleMapsScraper.extract_business_info` of
`src/improved_scraper.py:344-551`: with every `find_element` failure caught
selector-by-selector, the happy path always returns a dict in which every
field has been assigned; `photo_count` is stored as
`str(len(photo_elements))` and the `except` branch stores `'0'`.  (Dict
insertion order is irrelevant to the lookups below; the association list
groups the address-derived fields together.) -/
def extract_business_info (d : DocView) : List (String × PyVal) :=
  let addrFields : List (String × PyVal) :=
    match firstTextHit d addressSelectors with
    | some full =>
      ("full_address", PyVal.str full) ::
        (parse_address full).map fun p => (p.1, PyVal.str p.2)
    | none =>
      [("full_address", .str "N/A"), ("street", .str "N/A"),
       ("postal_code", .str "N/A")]
  let rating := ratingField d
  let reviewCount := reviewCountField d
  ("name", PyVal.str (nameField d)) :: addrFields ++
    [("phone", .str ((firstTextHit d phoneSelectors).getD "N/A")),
     ("website", .str (websiteField d)),
     ("rating", .str rating),
     ("review_count", .str reviewCount),
     ("reviews", .str (reviewsSummary rating reviewCount)),
     ("photo_count", .str (toString (d.photoIdxCount.getD 0))),
     ("location_link", .str d.currentUrl)]

end ImprovedScraper

namespace EnhancedRunner

open GMaps

/-- The `ExitCode` enum of `src/enhanced_test_runner.py:29-37`. -/
inductive ExitCode where
  | SUCCESS
  | CONFIG_ERROR
  | NO_RESULTS
  | OUTPUT_ERROR
  | SAVE_ERROR
  | SCRAPING_ERROR
  | INTERRUPTED
deriving DecidableEq, Repr

/-- The numeric `.value` of each `ExitCode` member. -/
def ExitCode.value : ExitCode → Nat
  | .SUCCESS => 0
  | .CONFIG_ERROR => 1
  | .NO_RESULTS => 2
  | .OUTPUT_ERROR => 3
  | .SAVE_ERROR => 4
  | .SCRAPING_ERROR => 5
  | .INTERRUPTED => 130

/-- The fields of `ScraperConfig` that `validate` reads
(`src/enhanced_test_runner.py:50-77`); float-typed fields are modelled as
rationals, which `validate`'s order comparisons read exactly.
(`custom_selectors` and the unread output fields are untouched by
`validate` and omitted.) -/
structure ScraperConfig where
  headless : Bool
  max_results_per_search : Int
  query : String
  location : String
  output_filename : String
  output_format : String
  max_concurrent_searches : Int
  delay_between_searches : Rat
  timeout_per_search : Int
  queries : List String
  locations : List String
  max_retries : Int
  retry_delay : Rat
deriving DecidableEq, Repr

/-- `ScraperConfig.validate` of `src/enhanced_test_runner.py:88-137`:
collect the error messages in source order; an empty list means the
configuration is valid. -/
def ScraperConfig.validate (c : ScraperConfig) : List String :=
  (if c.max_results_per_search ≤ 0 then
    ["max_results_per_search must be positive"] else []) ++
  (if c.max_results_per_search > 100 then
    ["max_results_per_search should not exceed 100 for stability"] else []) ++
  (if pyStripS c.query = "" && c.queries = [] then
    ["Either \x27query\x27 or \x27queries\x27 must be provided"] else []) ++
  (if pyStripS c.location = "" && c.locations = [] then
    ["Either \x27location\x27 or \x27locations\x27 must be provided"] else []) ++
  (if pyStripS c.output_filename = "" then
    ["Output filename cannot be empty"] else []) ++
  (if !(["csv", "json", "excel"].contains c.output_format) then
    ["output_format must be one of: csv, json, excel"] else []) ++
  (if c.max_concurrent_searches < 1 then
    ["max_concurrent_searches must be at least 1"] else []) ++
  (if c.max_concurrent_searches > 5 then
    ["max_concurrent_searches should not exceed 5 to avoid rate limiting"] else []) ++
  (if c.delay_between_searches < 0 then
    ["delay_between_searches cannot be negative"] else []) ++
  (if c.timeout_per_search < 30 then
    ["timeout_per_search should be at least 30 seconds"] else []) ++
  (if c.max_retries < 0 then
    ["max_retries cannot be negative"] else []) ++
  (if c.retry_delay < 0 then
    ["retry_delay cannot be negative"] else [])

/-- What the body of `run_enhanced_scraper`'s outer `try` did once
configuration validation passed: the search-and-save block either is cut
short by `KeyboardInterrupt`, fails with some other exception, or runs the
searches to completion with a final `len(scraper.results)` and a flag for
whether `save_results_multiple_formats` raised. -/
inductive BodyOutcome where
  | interrupted
  | scrapingError
  | completed (resultCount : Nat) (saveFails : Bool)
deriving DecidableEq, Repr

/-- `run_enhanced_scraper` of `src/enhanced_test_runner.py:371-496`,
reduced to its exit-code control flow: validation errors short-circuit to
`CONFIG_ERROR` before any task runs (the body outcome is never consulted);
then `KeyboardInterrupt → INTERRUPTED`, other exceptions →
`SCRAPING_ERROR`, zero collected records → `NO_RESULTS`, a save failure →
`SAVE_ERROR`, and only the fully successful path returns `SUCCESS`. -/
def run_enhanced_scraper (config : ScraperConfig) (body : BodyOutcome) : Nat :=
  if config.validate ≠ [] then ExitCode.CONFIG_ERROR.value
  else
    match body with
    | .interrupted => ExitCode.INTERRUPTED.value
    | .scrapingError => ExitCode.SCRAPING_ERROR.value
    | .completed resultCount saveFails =>
      if resultCount = 0 then ExitCode.NO_RESULTS.value
      else if saveFails then ExitCode.SAVE_ERROR.value
      else ExitCode.SUCCESS.value

end EnhancedRunner

namespace DmvScraper

/-- The `PlaceRecord` dataclass of `src/test/dmv_maps_scraper.py:64-78`
(all fields default to the empty string). -/
structure PlaceRecord where
  name : String := ""
  category : String := ""
  rating : String := ""
  reviews_count : String := ""
  address : String := ""
  phone : String := ""
  website : String := ""
  hours_summary : String := ""
  latitude : String := ""
  longitude : String := ""
  place_url : String := ""
  query : String := ""
  scraped_at : String := ""
deriving DecidableEq, Repr

/-- `r.place_url.split("&", 1)[0]`: the place URL truncated at the first
`&` (the whole URL if none). -/
def keyUrl (r : PlaceRecord) : String :=
  (r.place_url.splitOn "&").headD ""

/-- The loop of `dedupe_records` (`src/test/dmv_maps_scraper.py:291-306`)
with its two seen-sets made explicit: skip a record whose nonempty
truncated URL or nonempty phone was already seen; otherwise keep it and
register its nonempty keys. -/
def dedupeGo : List String → List String → List PlaceRecord → List PlaceRecord
  | _, _, [] => []
  | seenUrls, seenPhones, r :: rs =>
    if keyUrl r ≠ "" ∧ keyUrl r ∈ seenUrls then dedupeGo seenUrls seenPhones rs
    else if r.phone ≠ "" ∧ r.phone ∈ seenPhones then dedupeGo seenUrls seenPhones rs
    else
      r :: dedupeGo (if keyUrl r ≠ "" then keyUrl r :: seenUrls else seenUrls)
        (if r.phone ≠ "" then r.phone :: seenPhones else seenPhones) rs

/-- `dedupe_records` of `src/test/dmv_maps_scraper.py:291-306`. -/
def dedupe_records (records : List PlaceRecord) : List PlaceRecord :=
  dedupeGo [] [] records

/-- Specification-side keep condition, written from the claim: a record is
kept exactly when neither its truncated place URL (if nonempty) nor its
phone (if nonempty) occurred on an earlier kept record. -/
def keepAgainst (kept : List PlaceRecord) (r : PlaceRecord) : Bool :=
  (keyUrl r = "" || kept.all fun k => keyUrl k ≠ keyUrl r) &&
  (r.phone = "" || kept.all fun k => k.phone ≠ r.phone)

/-- Specification-side deduplication: walk the list carrying the records
kept so far. -/
def specDedupeGo (kept : List PlaceRecord) : List PlaceRecord → List PlaceRecord
  | [] => []
  | r :: rs =>
    if keepAgainst kept r then r :: specDedupeGo (kept ++ [r]) rs
    else specDedupeGo kept rs

/-- Specification-side entry point. -/
def specDedupe (records : List PlaceRecord) : List PlaceRecord :=
  specDedupeGo [] records

end DmvScraper

namespace GMaps

/-- The 13 output fields of a finished record, in the CSV column order of
`save_to_csv`. -/
def record13names : List String :=
  ["name", "website", "phone", "full_address", "street", "postal_code",
   "reviews", "rating", "review_count", "photo_count", "location_link",
   "search_query", "search_area"]

/-- Specification-side deduplication, written from the claim: walk the
records carrying the identifiers of every record seen so far; a record is
kept exactly when its identifier has not been registered earlier in the
run. -/
def keptBySpec (prevIds : List (PyVal × PyVal)) :
    List (List (String × PyVal)) → List (List (String × PyVal))
  | [] => []
  | r :: rs =>
    if identifierOf r ∈ prevIds then keptBySpec (prevIds ++ [identifierOf r]) rs
    else r :: keptBySpec (prevIds ++ [identifierOf r]) rs

/-- Specification-side reviews summary, written from the claim: four
message shapes by case analysis on which of rating / review count are
known. -/
def claimSummary (rating reviewCount : String) : String :=
  if rating ≠ "N/A" ∧ reviewCount ≠ "N/A" then
    rating ++ " stars (" ++ reviewCount ++ " reviews)"
  else if rating ≠ "N/A" then rating ++ " stars"
  else if reviewCount ≠ "N/A" then "(" ++ reviewCount ++ " reviews)"
  else "N/A"

end GMaps

/-- C1: for a ZIP+4 address the spec (and the repository's own test
`test_parse_address_truncates_zip_plus4`) require `parse_address` to report
only the 5-digit prefix as `postal_code`, but
`src/improved_scraper.py:559` stores `postal_match.group(0)` — the whole
token including the `-1234` suffix — on the test's own input
`"123 Main St, Washington, DC 20001-1234"` (the street part does satisfy
the claim). -/
theorem C1_zip4_postal_not_truncated :
    ImprovedScraper.parse_address "123 Main St, Washington, DC 20001-1234" =
      [("postal_code", "20001-1234"), ("street", "123 Main St, Washington")] ∧
    ("20001-1234" : String) ≠ "20001" := by
  constructor
  · decide
  · decide

/-- C4 counterexample: in `src/improved_scraper.py:522-525` the summary is a
single combined shape whenever either value is present, so a known rating
with an unknown review count yields `"4.5 stars (N/A reviews)"` — the
literal `'N/A'` embedded inside a stars/reviews message — instead of the
claimed `"4.5 stars"`. -/
theorem C4_improved_summary_embeds_NA :
    ImprovedScraper.reviewsSummary "4.5" "N/A" = "4.5 stars (N/A reviews)" ∧
    GMaps.hasSubstr ("N/A").data ("4.5 stars (N/A reviews)").data = true ∧
    ImprovedScraper.reviewsSummary "4.5" "N/A" ≠ "4.5 stars" := by
  refine ⟨rfl, by decide, by decide⟩

/-- C4 amended: the four-shape case analysis (both present / rating only /
count only / neither, never embedding `'N/A'`) holds for the base scraper's
summary (`src/scraper.py:477-484`); the improved variant
(`src/improved_scraper.py:522-525`) instead uses the combined shape whenever
either value is present, embedding `'N/A'` for the missing one, and agrees
with the claim only in the both-present and neither-present cases. -/
theorem C4_summary_shapes :
    (∀ rating reviewCount : String,
      BaseScraper.reviewsSummary rating reviewCount =
        GMaps.claimSummary rating reviewCount) ∧
    (∀ rating reviewCount : String, rating ≠ "N/A" → reviewCount ≠ "N/A" →
      ImprovedScraper.reviewsSummary rating reviewCount =
        rating ++ " stars (" ++ reviewCount ++ " reviews)") ∧
    (∀ rating : String, rating ≠ "N/A" →
      ImprovedScraper.reviewsSummary rating "N/A" =
        rating ++ " stars (N/A reviews)") ∧
    (∀ reviewCount : String, reviewCount ≠ "N/A" →
      ImprovedScraper.reviewsSummary "N/A" reviewCount =
        "N/A stars (" ++ reviewCount ++ " reviews)") ∧
    ImprovedScraper.reviewsSummary "N/A" "N/A" = "N/A" := by
  refine ⟨fun rating reviewCount => ?_, fun rating reviewCount h1 h2 => ?_,
    fun rating h => ?_, fun reviewCount h => ?_, rfl⟩
  · by_cases h1 : rating = "N/A" <;> by_cases h2 : reviewCount = "N/A" <;>
      simp [BaseScraper.reviewsSummary, GMaps.claimSummary, h1, h2]
  · simp [ImprovedScraper.reviewsSummary, h1]
  · simp [ImprovedScraper.reviewsSummary, h, String.append_assoc]
  · simp [ImprovedScraper.reviewsSummary, h, String.append_assoc]

/-- C4 witness: the amended theorem applied at concrete ratings and
counts. -/
theorem C4_summary_shapes_witness :
    BaseScraper.reviewsSummary "4.5" "N/A" = GMaps.claimSummary "4.5" "N/A" ∧
    ImprovedScraper.reviewsSummary "4.5" "120" = "4.5 stars (120 reviews)" ∧
    ImprovedScraper.reviewsSummary "4.5" "N/A" = "4.5 stars (N/A reviews)" ∧
    ImprovedScraper.reviewsSummary "N/A" "120" = "N/A stars (120 reviews)" :=
  ⟨C4_summary_shapes.1 "4.5" "N/A",
   C4_summary_shapes.2.1 "4.5" "120" (by decide) (by decide),
   C4_summary_shapes.2.2.1 "4.5" (by decide),
   C4_summary_shapes.2.2.2.1 "120" (by decide)⟩

/-- C6 counterexample: on tile counts `5,5,5,5,8,8,8,8,8,8` with target 10
the count stays unchanged for 3 consecutive scroll attempts and then grows,
so under the claimed threshold-3 rule the loop must stop after 4 scrolls —
the improved variant does, but the base scraper's loop
(`src/scraper.py:273-307`, `max_stagnant_rounds = 4` checked after the
current observation) keeps scrolling and issues 8 scrolls. -/
theorem C6_base_scroll_threshold_counterexample :
    BaseScraper.scroll_results 10 [5, 5, 5, 5, 8, 8, 8, 8, 8, 8] = some 8 ∧
    ImprovedScraper.scroll_results 10 [5, 5, 5, 5, 8, 8, 8, 8, 8, 8] = some 4 ∧
    (some 8 : Option Nat) ≠ some 4 := by
  refine ⟨rfl, rfl, by decide⟩

/-- C6 amended: the improved reveal loop terminates exactly when the
observed tile count reaches `max_to_load` or `stagnant_rounds` (the number
of consecutive unchanged observations so far) has reached 3, and otherwise
issues another scroll; the base scraper's loop instead terminates exactly
when the count reaches `max_to_load` or the current observation is
unchanged and brings the consecutive-unchanged tally to its threshold of
4. -/
theorem C6_scroll_loop_termination :
    (∀ (maxToLoad count prevCount stagnantRounds : Nat) (rest : List Nat),
      (ImprovedScraper.scrollLoop maxToLoad (count :: rest) prevCount stagnantRounds
          = some 0 ↔ count ≥ maxToLoad ∨ stagnantRounds ≥ 3) ∧
      (¬(count ≥ maxToLoad ∨ stagnantRounds ≥ 3) →
        ImprovedScraper.scrollLoop maxToLoad (count :: rest) prevCount stagnantRounds =
          (ImprovedScraper.scrollLoop maxToLoad rest count
            (if count = prevCount then stagnantRounds + 1 else 0)).map (· + 1))) ∧
    (∀ (maxToLoad count prevCount stagnantRounds : Nat) (rest : List Nat),
      (BaseScraper.scrollLoop maxToLoad (count :: rest) prevCount stagnantRounds
          = some 0 ↔ count ≥ maxToLoad ∨ (count = prevCount ∧ stagnantRounds + 1 ≥ 4)) ∧
      (¬(count ≥ maxToLoad ∨ (count = prevCount ∧ stagnantRounds + 1 ≥ 4)) →
        BaseScraper.scrollLoop maxToLoad (count :: rest) prevCount stagnantRounds =
          (BaseScraper.scrollLoop maxToLoad rest count
            (if count = prevCount then stagnantRounds + 1 else 0)).map (· + 1))) := by
  constructor
  · intro maxToLoad count prevCount stagnantRounds rest
    constructor
    · rw [ImprovedScraper.scrollLoop]
      by_cases h1 : maxToLoad ≤ count <;> by_cases h2 : 3 ≤ stagnantRounds <;>
          simp [h1, h2] <;>
        cases ImprovedScraper.scrollLoop maxToLoad rest count
            (if count = prevCount then stagnantRounds + 1 else 0) <;>
          simp
    · intro h
      push_neg at h
      rw [ImprovedScraper.scrollLoop]
      simp [h.1, h.2]
  · intro maxToLoad count prevCount stagnantRounds rest
    constructor
    · rw [BaseScraper.scrollLoop]
      by_cases h1 : maxToLoad ≤ count <;> by_cases h2 : count = prevCount <;>
          by_cases h3 : 3 ≤ stagnantRounds <;> simp [h1, h2, h3] <;>
        first
          | omega
          | (cases BaseScraper.scrollLoop maxToLoad rest count
                (if count = prevCount then stagnantRounds + 1 else 0) <;> simp <;> omega)
    · intro h
      push_neg at h
      have hnm : ¬count ≥ maxToLoad := by omega
      have h4 : ¬(if count = prevCount then stagnantRounds + 1 else 0) ≥ 4 := by
        by_cases h2 : count = prevCount
        · rw [if_pos h2]
          have := h.2 h2
          omega
        · rw [if_neg h2]
          omega
      rw [BaseScraper.scrollLoop]
      dsimp only
      rw [if_neg hnm, if_neg h4]

/-- C6 witness: the amended characterisation applied to concrete loop
states — the improved loop breaking at stagnation 3, the improved loop
scrolling below the threshold, and the base loop scrolling in a state where
the claimed threshold-3 rule would already have stopped it. -/
theorem C6_scroll_loop_termination_witness :
    (ImprovedScraper.scrollLoop 10 [5] 5 3 = some 0 ↔ 5 ≥ 10 ∨ 3 ≥ 3) ∧
    ImprovedScraper.scrollLoop 10 [4] 4 2 =
      (ImprovedScraper.scrollLoop 10 [] 4 3).map (· + 1) ∧
    BaseScraper.scrollLoop 10 [8] 5 3 =
      (BaseScraper.scrollLoop 10 [] 8 0).map (· + 1) :=
  ⟨(C6_scroll_loop_termination.1 10 5 5 3 []).1,
   by
    have h := (C6_scroll_loop_termination.1 10 4 4 2 []).2 (by omega)
    simpa using h,
   by
    have h := (C6_scroll_loop_termination.2 10 8 5 3 []).2 (by omega)
    simpa using h⟩

/-- C7: on `WebDriverException` the improved scraper's `search_locations`
retries the whole task with a driver restart and a delay between attempts,
within a total budget of 3 attempts; when every attempt fails it gives up,
reports failure and does not raise, and when attempt `k < 3` is the first
to succeed it has run `k + 1` attempts and `k` restarts/delays. -/
theorem C7_search_retry_budget :
    ∀ perform : Nat → ImprovedScraper.AttemptOutcome,
      ((∀ i, i < 3 → perform i = .wdError) →
        ImprovedScraper.search_locations perform =
          ⟨3, 2, 2, false, false⟩) ∧
      (∀ k, k < 3 → perform k = .ok → (∀ i, i < k → perform i = .wdError) →
        ImprovedScraper.search_locations perform =
          ⟨k + 1, k, k, true, false⟩) := by
  intro perform
  constructor
  · intro h
    have h0 := h 0 (by omega)
    have h1 := h 1 (by omega)
    have h2 := h 2 (by omega)
    simp [ImprovedScraper.search_locations, ImprovedScraper.retryGo, h0, h1, h2]
  · intro k hk hok hbefore
    interval_cases k
    · simp [ImprovedScraper.search_locations, ImprovedScraper.retryGo, hok]
    · have h0 := hbefore 0 (by omega)
      simp [ImprovedScraper.search_locations, ImprovedScraper.retryGo, h0, hok]
    · have h0 := hbefore 0 (by omega)
      have h1 := hbefore 1 (by omega)
      simp [ImprovedScraper.search_locations, ImprovedScraper.retryGo, h0, h1, hok]

/-- C7 witness: the retry characterisation applied to a task that always
fails and to a task whose second attempt succeeds. -/
theorem C7_search_retry_budget_witness :
    ImprovedScraper.search_locations (fun _ => .wdError) =
      ⟨3, 2, 2, false, false⟩ ∧
    ImprovedScraper.search_locations
        (fun i => if i = 1 then .ok else .wdError) =
      ⟨2, 1, 1, true, false⟩ :=
  ⟨(C7_search_retry_budget (fun _ => .wdError)).1 (fun _ _ => rfl),
   (C7_search_retry_budget (fun i => if i = 1 then .ok else .wdError)).2
     1 (by omega) (by decide) (fun i hi => by interval_cases i <;> decide)⟩

/-- C8: `run_enhanced_scraper`'s exit code distinguishes outcomes — a
failing configuration validation yields `CONFIG_ERROR` whatever the run
body would have done (it never runs), an interrupt yields `INTERRUPTED`,
zero collected records yield `NO_RESULTS`, a save failure yields
`SAVE_ERROR`, any other body exception yields `SCRAPING_ERROR`, and the
code is `SUCCESS = 0` exactly on a validated run that collected at least
one record and saved it; the five claimed codes are pairwise distinct. -/
theorem C8_exit_codes :
    ∀ (config : EnhancedRunner.ScraperConfig) (body : EnhancedRunner.BodyOutcome),
      (config.validate ≠ [] →
        EnhancedRunner.run_enhanced_scraper config body =
          EnhancedRunner.ExitCode.CONFIG_ERROR.value) ∧
      (config.validate = [] →
        EnhancedRunner.run_enhanced_scraper config .interrupted =
          EnhancedRunner.ExitCode.INTERRUPTED.value ∧
        (∀ saveFails, EnhancedRunner.run_enhanced_scraper config
            (.completed 0 saveFails) = EnhancedRunner.ExitCode.NO_RESULTS.value) ∧
        (∀ n, EnhancedRunner.run_enhanced_scraper config
            (.completed (n + 1) true) = EnhancedRunner.ExitCode.SAVE_ERROR.value) ∧
        EnhancedRunner.run_enhanced_scraper config .scrapingError =
          EnhancedRunner.ExitCode.SCRAPING_ERROR.value) ∧
      (EnhancedRunner.run_enhanced_scraper config body =
          EnhancedRunner.ExitCode.SUCCESS.value ↔
        config.validate = [] ∧ ∃ n, body = .completed (n + 1) false) ∧
      [EnhancedRunner.ExitCode.SUCCESS.value,
       EnhancedRunner.ExitCode.CONFIG_ERROR.value,
       EnhancedRunner.ExitCode.NO_RESULTS.value,
       EnhancedRunner.ExitCode.SAVE_ERROR.value,
       EnhancedRunner.ExitCode.INTERRUPTED.value].Nodup := by
  intro config body
  refine ⟨fun hv => ?_, fun hv => ⟨?_, fun saveFails => ?_, fun n => ?_, ?_⟩,
    ⟨fun hrun => ?_, ?_⟩, by decide⟩
  · simp [EnhancedRunner.run_enhanced_scraper, hv, EnhancedRunner.ExitCode.value]
  · simp [EnhancedRunner.run_enhanced_scraper, hv, EnhancedRunner.ExitCode.value]
  · simp [EnhancedRunner.run_enhanced_scraper, hv, EnhancedRunner.ExitCode.value]
  · simp [EnhancedRunner.run_enhanced_scraper, hv, EnhancedRunner.ExitCode.value]
  · simp [EnhancedRunner.run_enhanced_scraper, hv, EnhancedRunner.ExitCode.value]
  · by_cases hv : config.validate = []
    · refine ⟨hv, ?_⟩
      cases body with
      | interrupted =>
        simp [EnhancedRunner.run_enhanced_scraper, hv,
          EnhancedRunner.ExitCode.value] at hrun
      | scrapingError =>
        simp [EnhancedRunner.run_enhanced_scraper, hv,
          EnhancedRunner.ExitCode.value] at hrun
      | completed n saveFails =>
        cases n with
        | zero =>
          simp [EnhancedRunner.run_enhanced_scraper, hv,
            EnhancedRunner.ExitCode.value] at hrun
        | succ m =>
          cases saveFails
          · exact ⟨m, rfl⟩
          · simp [EnhancedRunner.run_enhanced_scraper, hv,
              EnhancedRunner.ExitCode.value] at hrun
    · simp [EnhancedRunner.run_enhanced_scraper, hv,
        EnhancedRunner.ExitCode.value] at hrun
  · rintro ⟨hv, n, rfl⟩
    simp [EnhancedRunner.run_enhanced_scraper, hv, EnhancedRunner.ExitCode.value]

/-- A concrete configuration that passes `validate` (used by the C8
witness). -/
def cfgOK : EnhancedRunner.ScraperConfig :=
  ⟨true, 10, "shooting ranges", "Washington DC", "gmaps_results.csv", "csv",
   1, 2, 300, [], [], 3, 5⟩

/-- The same configuration with a non-positive result cap, which fails
`validate` (used by the C8 witness). -/
def cfgBad : EnhancedRunner.ScraperConfig :=
  { cfgOK with max_results_per_search := 0 }

/-- C8 witness: the exit-code theorem applied to a valid and an invalid
concrete configuration. -/
theorem C8_exit_codes_witness :
    EnhancedRunner.run_enhanced_scraper cfgBad (.completed 7 false) = 1 ∧
    EnhancedRunner.run_enhanced_scraper cfgOK .interrupted = 130 ∧
    EnhancedRunner.run_enhanced_scraper cfgOK (.completed 0 false) = 2 ∧
    EnhancedRunner.run_enhanced_scraper cfgOK (.completed 7 true) = 4 ∧
    EnhancedRunner.run_enhanced_scraper cfgOK (.completed 7 false) = 0 :=
  ⟨(C8_exit_codes cfgBad (.completed 7 false)).1 (by decide),
   ((C8_exit_codes cfgOK .interrupted).2.1 (by decide)).1,
   ((C8_exit_codes cfgOK (.completed 0 false)).2.1 (by decide)).2.1 false,
   ((C8_exit_codes cfgOK (.completed 7 true)).2.1 (by decide)).2.2.1 6,
   (C8_exit_codes cfgOK (.completed 7 false)).2.2.1.mpr ⟨by decide, 6, rfl⟩⟩

/-- The dedup-and-append fold refines the claim-side first-occurrence
filter, given that the running seen-set holds exactly the identifiers
registered so far. -/
theorem processAll_aux :
    ∀ (recs : List (List (String × GMaps.PyVal)))
      (seen prevIds : List (GMaps.PyVal × GMaps.PyVal))
      (res : List (List (String × GMaps.PyVal))),
      (∀ x, x ∈ seen ↔ x ∈ prevIds) →
      (recs.foldl GMaps.processRecord ⟨res, seen⟩).results =
        res ++ GMaps.keptBySpec prevIds recs := by
  intro recs
  induction recs with
  | nil => intro seen prevIds res h; simp [GMaps.keptBySpec]
  | cons r rs ih =>
    intro seen prevIds res h
    by_cases hid : GMaps.identifierOf r ∈ seen
    · have hid2 : GMaps.identifierOf r ∈ prevIds := (h _).mp hid
      rw [List.foldl_cons, show GMaps.processRecord ⟨res, seen⟩ r = ⟨res, seen⟩ from
        by simp [GMaps.processRecord, hid]]
      rw [GMaps.keptBySpec, if_pos hid2]
      refine ih seen (prevIds ++ [GMaps.identifierOf r]) res fun x => ?_
      rw [h x]
      constructor
      · exact fun hx => List.mem_append_left _ hx
      · intro hx
        rcases List.mem_append.mp hx with hx | hx
        · exact hx
        · rw [List.mem_singleton.mp hx]
          exact hid2
    · have hid2 : GMaps.identifierOf r ∉ prevIds := fun hx => hid ((h _).mpr hx)
      rw [List.foldl_cons, show GMaps.processRecord ⟨res, seen⟩ r =
          ⟨res ++ [r], GMaps.identifierOf r :: seen⟩ from
        by simp [GMaps.processRecord, hid]]
      rw [GMaps.keptBySpec, if_neg hid2]
      rw [ih (GMaps.identifierOf r :: seen) (prevIds ++ [GMaps.identifierOf r])
        (res ++ [r]) fun x => by simp [h x, or_comm]]
      simp

/-- C2: a record is appended to `self.results` iff its raw
`(name, full_address)` identifier was not registered by any earlier record
of the run (first occurrence wins, later duplicates dropped silently);
hence two records with identical identifiers leave exactly the first one,
and two records equal in name but different in full_address are both
kept. -/
theorem C2_dedup_by_identifier :
    (∀ recs, (GMaps.processAll recs).results = GMaps.keptBySpec [] recs) ∧
    (∀ r1 r2, GMaps.identifierOf r1 = GMaps.identifierOf r2 →
      (GMaps.processAll [r1, r2]).results = [r1]) ∧
    (∀ r1 r2,
      (r1.lookup "name").getD (.str "") = (r2.lookup "name").getD (.str "") →
      (r1.lookup "full_address").getD (.str "") ≠
        (r2.lookup "full_address").getD (.str "") →
      (GMaps.processAll [r1, r2]).results = [r1, r2]) := by
  refine ⟨fun recs => processAll_aux recs [] [] [] fun x => Iff.rfl,
    fun r1 r2 h => ?_, fun r1 r2 hn ha => ?_⟩
  · simp [GMaps.processAll, GMaps.processRecord, h]
  · have hne : GMaps.identifierOf r2 ≠ GMaps.identifierOf r1 := by
      simp only [GMaps.identifierOf, ne_eq, Prod.mk.injEq]
      intro hc
      exact ha hc.2.symm
    simp [GMaps.processAll, GMaps.processRecord, hne]

/-- C2 witness: the deduplication theorem applied to concrete records —
an exact duplicate is dropped, a record differing only in `full_address`
is kept. -/
theorem C2_dedup_by_identifier_witness :
    (GMaps.processAll
      [[("name", GMaps.PyVal.str "Acme Range"), ("full_address", GMaps.PyVal.str "1 Range Rd")],
       [("name", GMaps.PyVal.str "Acme Range"), ("full_address", GMaps.PyVal.str "1 Range Rd")]]).results =
      [[("name", GMaps.PyVal.str "Acme Range"), ("full_address", GMaps.PyVal.str "1 Range Rd")]] ∧
    (GMaps.processAll
      [[("name", GMaps.PyVal.str "Acme Range"), ("full_address", GMaps.PyVal.str "1 Range Rd")],
       [("name", GMaps.PyVal.str "Acme Range"), ("full_address", GMaps.PyVal.str "2 Range Rd")]]).results =
      [[("name", GMaps.PyVal.str "Acme Range"), ("full_address", GMaps.PyVal.str "1 Range Rd")],
       [("name", GMaps.PyVal.str "Acme Range"), ("full_address", GMaps.PyVal.str "2 Range Rd")]] :=
  ⟨C2_dedup_by_identifier.2.1 _ _ rfl,
   C2_dedup_by_identifier.2.2 _ _ (by decide) (by decide)⟩

namespace DmvScraper

/-- `keepAgainst` in propositional form. -/
theorem keepAgainst_iff (kept : List PlaceRecord) (r : PlaceRecord) :
    keepAgainst kept r = true ↔
      (keyUrl r = "" ∨ ∀ k ∈ kept, keyUrl k ≠ keyUrl r) ∧
      (r.phone = "" ∨ ∀ k ∈ kept, k.phone ≠ r.phone) := by
  simp [keepAgainst]

/-- The two seen-sets of `dedupe_records` hold exactly the nonempty keys of
the records kept so far, so the loop refines the claim-side filter. -/
theorem dedupeGo_eq_spec :
    ∀ (rs : List PlaceRecord) (seenU seenP : List String) (kept : List PlaceRecord),
      (∀ x, x ∈ seenU ↔ x ≠ "" ∧ ∃ k ∈ kept, keyUrl k = x) →
      (∀ x, x ∈ seenP ↔ x ≠ "" ∧ ∃ k ∈ kept, k.phone = x) →
      dedupeGo seenU seenP rs = specDedupeGo kept rs := by
  intro rs
  induction rs with
  | nil => intro seenU seenP kept hU hP; rfl
  | cons r rs ih =>
    intro seenU seenP kept hU hP
    by_cases h1 : keyUrl r ≠ "" ∧ keyUrl r ∈ seenU
    · rw [dedupeGo, if_pos h1, specDedupeGo, if_neg (by
        rw [keepAgainst_iff]
        rintro ⟨hu, -⟩
        rcases hu with hu | hu
        · exact h1.1 hu
        · obtain ⟨k, hk, hke⟩ := ((hU (keyUrl r)).mp h1.2).2
          exact hu k hk hke)]
      exact ih seenU seenP kept hU hP
    · by_cases h2 : r.phone ≠ "" ∧ r.phone ∈ seenP
      · rw [dedupeGo, if_neg h1, if_pos h2, specDedupeGo, if_neg (by
          rw [keepAgainst_iff]
          rintro ⟨-, hp⟩
          rcases hp with hp | hp
          · exact h2.1 hp
          · obtain ⟨k, hk, hke⟩ := ((hP r.phone).mp h2.2).2
            exact hp k hk hke)]
        exact ih seenU seenP kept hU hP
      · have hkeep : keepAgainst kept r = true := by
          rw [keepAgainst_iff]
          constructor
          · by_cases hne : keyUrl r = ""
            · exact Or.inl hne
            · refine Or.inr fun k hk hke => h1 ⟨hne, (hU (keyUrl r)).mpr ⟨hne, k, hk, hke⟩⟩
          · by_cases hne : r.phone = ""
            · exact Or.inl hne
            · refine Or.inr fun k hk hke => h2 ⟨hne, (hP r.phone).mpr ⟨hne, k, hk, hke⟩⟩
        rw [dedupeGo, if_neg h1, if_neg h2, specDedupeGo, if_pos hkeep]
        refine congrArg (r :: ·) (ih _ _ (kept ++ [r]) (fun x => ?_) (fun x => ?_))
        · by_cases hne : keyUrl r = ""
          · rw [if_neg (by simpa using hne)]
            rw [hU x]
            constructor
            · rintro ⟨hx, k, hk, hke⟩
              exact ⟨hx, k, List.mem_append_left _ hk, hke⟩
            · rintro ⟨hx, k, hk, hke⟩
              rcases List.mem_append.mp hk with hk | hk
              · exact ⟨hx, k, hk, hke⟩
              · rw [List.mem_singleton.mp hk] at hke
                exact absurd (hne ▸ hke).symm hx
          · rw [if_pos hne, List.mem_cons, hU x]
            constructor
            · rintro (rfl | ⟨hx, k, hk, hke⟩)
              · exact ⟨hne, r, List.mem_append_right _ (List.mem_singleton.mpr rfl), rfl⟩
              · exact ⟨hx, k, List.mem_append_left _ hk, hke⟩
            · rintro ⟨hx, k, hk, hke⟩
              rcases List.mem_append.mp hk with hk | hk
              · exact Or.inr ⟨hx, k, hk, hke⟩
              · rw [List.mem_singleton.mp hk] at hke
                exact Or.inl hke.symm
        · by_cases hne : r.phone = ""
          · rw [if_neg (by simpa using hne)]
            rw [hP x]
            constructor
            · rintro ⟨hx, k, hk, hke⟩
              exact ⟨hx, k, List.mem_append_left _ hk, hke⟩
            · rintro ⟨hx, k, hk, hke⟩
              rcases List.mem_append.mp hk with hk | hk
              · exact ⟨hx, k, hk, hke⟩
              · rw [List.mem_singleton.mp hk] at hke
                exact absurd (hne ▸ hke).symm hx
          · rw [if_pos hne, List.mem_cons, hP x]
            constructor
            · rintro (rfl | ⟨hx, k, hk, hke⟩)
              · exact ⟨hne, r, List.mem_append_right _ (List.mem_singleton.mpr rfl), rfl⟩
              · exact ⟨hx, k, List.mem_append_left _ hk, hke⟩
            · rintro ⟨hx, k, hk, hke⟩
              rcases List.mem_append.mp hk with hk | hk
              · exact Or.inr ⟨hx, k, hk, hke⟩
              · rw [List.mem_singleton.mp hk] at hke
                exact Or.inl hke.symm

/-- `dedupe_records` keeps records in their input order. -/
theorem dedupeGo_sublist :
    ∀ (rs : List PlaceRecord) (seenU seenP : List String),
      (dedupeGo seenU seenP rs).Sublist rs := by
  intro rs
  induction rs with
  | nil => intro seenU seenP; exact List.Sublist.refl []
  | cons r rs ih =>
    intro seenU seenP
    rw [dedupeGo]
    by_cases h1 : keyUrl r ≠ "" ∧ keyUrl r ∈ seenU
    · rw [if_pos h1]
      exact (ih _ _).cons r
    · rw [if_neg h1]
      by_cases h2 : r.phone ≠ "" ∧ r.phone ∈ seenP
      · rw [if_pos h2]
        exact (ih _ _).cons r
      · rw [if_neg h2]
        exact (ih _ _).cons₂ r

/-- Records kept by the loop avoided the initial seen-sets. -/
theorem dedupeGo_notin :
    ∀ (rs : List PlaceRecord) (seenU seenP : List String) (r : PlaceRecord),
      r ∈ dedupeGo seenU seenP rs →
      (keyUrl r ≠ "" → keyUrl r ∉ seenU) ∧ (r.phone ≠ "" → r.phone ∉ seenP) := by
  intro rs
  induction rs with
  | nil => intro seenU seenP r h; simp [dedupeGo] at h
  | cons a as ih =>
    intro seenU seenP r h
    rw [dedupeGo] at h
    by_cases h1 : keyUrl a ≠ "" ∧ keyUrl a ∈ seenU
    · rw [if_pos h1] at h
      exact ih _ _ r h
    · rw [if_neg h1] at h
      by_cases h2 : a.phone ≠ "" ∧ a.phone ∈ seenP
      · rw [if_pos h2] at h
        exact ih _ _ r h
      · rw [if_neg h2] at h
        rcases List.mem_cons.mp h with rfl | h
        · exact ⟨fun hne hmem => h1 ⟨hne, hmem⟩, fun hne hmem => h2 ⟨hne, hmem⟩⟩
        · have := ih _ _ r h
          refine ⟨fun hne hmem => this.1 hne ?_, fun hne hmem => this.2 hne ?_⟩
          · by_cases hka : keyUrl a ≠ ""
            · rw [if_pos hka]
              exact List.mem_cons_of_mem _ hmem
            · rw [if_neg hka]
              exact hmem
          · by_cases hpa : a.phone ≠ ""
            · rw [if_pos hpa]
              exact List.mem_cons_of_mem _ hmem
            · rw [if_neg hpa]
              exact hmem

/-- Distinct kept records never share a nonempty truncated URL or a
nonempty phone. -/
theorem dedupeGo_pairwise :
    ∀ (rs : List PlaceRecord) (seenU seenP : List String),
      List.Pairwise (fun a b =>
        (keyUrl a ≠ "" → keyUrl b ≠ keyUrl a) ∧ (a.phone ≠ "" → b.phone ≠ a.phone))
        (dedupeGo seenU seenP rs) := by
  intro rs
  induction rs with
  | nil => intro seenU seenP; exact List.Pairwise.nil
  | cons a as ih =>
    intro seenU seenP
    rw [dedupeGo]
    by_cases h1 : keyUrl a ≠ "" ∧ keyUrl a ∈ seenU
    · rw [if_pos h1]
      exact ih _ _
    · rw [if_neg h1]
      by_cases h2 : a.phone ≠ "" ∧ a.phone ∈ seenP
      · rw [if_pos h2]
        exact ih _ _
      · rw [if_neg h2]
        refine List.Pairwise.cons (fun b hb => ?_) (ih _ _)
        have hnb := dedupeGo_notin as _ _ b hb
        constructor
        · intro hka hbe
          have : keyUrl b ∉ (if keyUrl a ≠ "" then keyUrl a :: seenU else seenU) :=
            hnb.1 (hbe ▸ hka)
          rw [if_pos hka] at this
          exact this (hbe ▸ List.mem_cons_self _ _)
        · intro hpa hbe
          have : b.phone ∉ (if a.phone ≠ "" then a.phone :: seenP else seenP) :=
            hnb.2 (hbe ▸ hpa)
          rw [if_pos hpa] at this
          exact this (hbe ▸ List.mem_cons_self _ _)

/-- A list already deduplicated (pairwise fresh keys, disjoint from the
seen-sets) passes through the loop unchanged. -/
theorem dedupeGo_id_of :
    ∀ (rs : List PlaceRecord) (seenU seenP : List String),
      (∀ r ∈ rs, (keyUrl r ≠ "" → keyUrl r ∉ seenU) ∧ (r.phone ≠ "" → r.phone ∉ seenP)) →
      List.Pairwise (fun a b =>
        (keyUrl a ≠ "" → keyUrl b ≠ keyUrl a) ∧ (a.phone ≠ "" → b.phone ≠ a.phone)) rs →
      dedupeGo seenU seenP rs = rs := by
  intro rs
  induction rs with
  | nil => intro seenU seenP h hp; rfl
  | cons a as ih =>
    intro seenU seenP h hp
    have ha := h a (List.mem_cons_self _ _)
    rw [dedupeGo, if_neg (fun hc => ha.1 hc.1 hc.2), if_neg (fun hc => ha.2 hc.1 hc.2)]
    refine congrArg (a :: ·) (ih _ _ (fun r hr => ?_) hp.of_cons)
    have hrr := h r (List.mem_cons_of_mem _ hr)
    have hab := (List.pairwise_cons.mp hp).1 r hr
    constructor
    · intro hne
      by_cases hka : keyUrl a ≠ ""
      · rw [if_pos hka]
        intro hmem
        rcases List.mem_cons.mp hmem with he | hmem
        · exact hab.1 hka he
        · exact hrr.1 hne hmem
      · rw [if_neg hka]
        exact hrr.1 hne
    · intro hne
      by_cases hpa : a.phone ≠ ""
      · rw [if_pos hpa]
        intro hmem
        rcases List.mem_cons.mp hmem with he | hmem
        · exact hab.2 hpa he
        · exact hrr.2 hne hmem
      · rw [if_neg hpa]
        exact hrr.2 hne

end DmvScraper

/-- C10: `dedupe_records` keeps an input record exactly when neither its
place URL truncated at the first `&` (if nonempty) nor its phone (if
nonempty) occurred on an earlier kept record (the specification-side
filter `specDedupe`), preserves the relative order of kept records, and is
idempotent. -/
theorem C10_dedupe_records :
    (∀ records, DmvScraper.dedupe_records records = DmvScraper.specDedupe records) ∧
    (∀ records, (DmvScraper.dedupe_records records).Sublist records) ∧
    (∀ records,
      DmvScraper.dedupe_records (DmvScraper.dedupe_records records) =
        DmvScraper.dedupe_records records) := by
  refine ⟨fun records => ?_, fun records => DmvScraper.dedupeGo_sublist records [] [],
    fun records => ?_⟩
  · exact DmvScraper.dedupeGo_eq_spec records [] [] []
      (fun x => by simp) (fun x => by simp)
  · exact DmvScraper.dedupeGo_id_of _ [] []
      (fun r _ => ⟨fun _ h => by simp at h, fun _ h => by simp at h⟩)
      (DmvScraper.dedupeGo_pairwise records [] [])

/-- A detail-page view in which only the `h1` element resolves (with empty
text), the page title is empty and no photos are indexed — the base
scraper's extraction succeeds on it. -/
def emptyDocBase : GMaps.DocView :=
  ⟨fun sel => if sel = "h1" then some ⟨"", fun _ => none⟩ else none,
   fun _ => none, "", "http://example.com/place", some 0⟩

/-- A detail-page view in which no selector resolves at all. -/
def emptyDocImproved : GMaps.DocView :=
  ⟨fun _ => none, fun _ => none, "", "http://example.com/place", some 0⟩

/-- Both variants' `parse_address` always returns exactly the keys
`postal_code` and `street` (improved variant). -/
theorem parse_address_improved_shape (a : String) :
    ∃ pc st, ImprovedScraper.parse_address a = [("postal_code", pc), ("street", st)] := by
  unfold ImprovedScraper.parse_address
  cases GMaps.scanPostal false a.data with
  | none => exact ⟨_, _, rfl⟩
  | some tok => exact ⟨_, _, rfl⟩

/-- Both variants' `parse_address` always returns exactly the keys
`postal_code` and `street` (base variant). -/
theorem parse_address_base_shape (a : String) :
    ∃ pc st, BaseScraper.parse_address a = [("postal_code", pc), ("street", st)] := by
  unfold BaseScraper.parse_address
  cases GMaps.searchZipEnd a.data with
  | none => exact ⟨_, _, rfl⟩
  | some tok => exact ⟨_, _, rfl⟩

/-- C3 counterexample: on a page whose `h1` resolves with empty text and
whose title is empty, `src/scraper.py`'s extraction succeeds but stores
`photo_count` as a Python `int` (not a string) and the name as the empty
string (not the claimed `'Unknown'` sentinel). -/
theorem C3_base_record_counterexample :
    (BaseScraper.extract_business_info emptyDocBase).map
        (List.lookup "photo_count") = some (some (.int 0)) ∧
    GMaps.PyVal.isStr (.int 0) = false ∧
    (BaseScraper.extract_business_info emptyDocBase).map
        (List.lookup "name") = some (some (.str "")) ∧
    GMaps.PyVal.str "" ≠ GMaps.PyVal.str "Unknown" := by
  refine ⟨rfl, rfl, rfl, by decide⟩

/-- C3 amended: every successful extraction, with the caller's
`search_query` / `search_area` attached, carries all 13 output fields;
in the improved variant every value is a string (sentinels `'Unknown'` for
the name, `'0'` for the photo count, `'N/A'` elsewhere, as witnessed by the
all-selectors-missing view), while in the base variant every value is a
string except `photo_count`, which is an integer, and a missing name is the
empty string. -/
theorem C3_record_fields :
    (∀ (d : GMaps.DocView) (query area k : String), k ∈ GMaps.record13names →
      ∃ s, (GMaps.finishRecord (ImprovedScraper.extract_business_info d)
          query area).lookup k = some (GMaps.PyVal.str s)) ∧
    (∀ (d : GMaps.DocView) (query area : String) (rec : List (String × GMaps.PyVal)),
      BaseScraper.extract_business_info d = some rec →
      ∀ k ∈ GMaps.record13names,
        ∃ v, (GMaps.finishRecord rec query area).lookup k = some v ∧
          (k ≠ "photo_count" → v.isStr = true) ∧
          (k = "photo_count" → v.isStr = false)) ∧
    ImprovedScraper.extract_business_info emptyDocImproved =
      [("name", .str "Unknown"), ("full_address", .str "N/A"),
       ("street", .str "N/A"), ("postal_code", .str "N/A"),
       ("phone", .str "N/A"), ("website", .str "N/A"),
       ("rating", .str "N/A"), ("review_count", .str "N/A"),
       ("reviews", .str "N/A"), ("photo_count", .str "0"),
       ("location_link", .str "http://example.com/place")] := by
  refine ⟨fun d query area k hk => ?_, fun d query area rec hrec k hk => ?_, rfl⟩
  · rcases haddr : GMaps.firstTextHit d ImprovedScraper.addressSelectors with _ | full
    · fin_cases hk <;>
        simp [GMaps.finishRecord, ImprovedScraper.extract_business_info, haddr,
          List.lookup]
    · obtain ⟨pc, st, hps⟩ := parse_address_improved_shape full
      fin_cases hk <;>
        simp [GMaps.finishRecord, ImprovedScraper.extract_business_info, haddr,
          hps, List.lookup]
  · rcases hcss : d.css "h1" with _ | h1el
    · rw [BaseScraper.extract_business_info, hcss] at hrec
      simp at hrec
    · rw [BaseScraper.extract_business_info, hcss] at hrec
      obtain rfl := Option.some.inj hrec
      rcases haddr : BaseScraper.addressElem d with _ | el
      · fin_cases hk <;>
          simp [GMaps.finishRecord, haddr, List.lookup, GMaps.PyVal.isStr]
      · obtain ⟨pc, st, hps⟩ := parse_address_base_shape (GMaps.pyStripS el.text)
        fin_cases hk <;>
          simp [GMaps.finishRecord, haddr, hps, List.lookup, GMaps.PyVal.isStr]

/-- C3 witness: the amended field-presence theorem applied to the concrete
document views. -/
theorem C3_record_fields_witness :
    (∃ s, (GMaps.finishRecord (ImprovedScraper.extract_business_info emptyDocImproved)
        "shooting ranges" "Washington DC").lookup "rating" =
      some (GMaps.PyVal.str s)) ∧
    (∃ v, (GMaps.finishRecord
        [("name", GMaps.PyVal.str ""), ("full_address", GMaps.PyVal.str "N/A"),
         ("street", GMaps.PyVal.str "N/A"), ("postal_code", GMaps.PyVal.str "N/A"),
         ("phone", GMaps.PyVal.str "N/A"), ("website", GMaps.PyVal.str "N/A"),
         ("rating", GMaps.PyVal.str "N/A"), ("review_count", GMaps.PyVal.str "N/A"),
         ("reviews", GMaps.PyVal.str "N/A"), ("photo_count", GMaps.PyVal.int 0),
         ("location_link", GMaps.PyVal.str "http://example.com/place")]
        "shooting ranges" "Washington DC").lookup "photo_count" = some v ∧
      ("photo_count" ≠ "photo_count" → v.isStr = true) ∧
      ("photo_count" = "photo_count" → v.isStr = false)) :=
  ⟨C3_record_fields.1 emptyDocImproved "shooting ranges" "Washington DC" "rating"
      (by decide),
   C3_record_fields.2.1 emptyDocBase "shooting ranges" "Washington DC" _ rfl
      "photo_count" (by decide)⟩

namespace GMaps

/-- A character satisfying a predicate differs from one falsifying it. -/
theorem Char.ne_of_pred {c d : Char} {p : Char → Bool} (h : p c = true)
    (hd : p d = false) : c ≠ d := by
  intro he
  rw [he, hd] at h
  cases h

/-- An uppercase letter is not whitespace. -/
theorem isUpper_not_ws {c : Char} (h : c.isUpper = true) :
    c.isWhitespace = false := by
  simp only [Char.isUpper, Bool.and_eq_true, decide_eq_true_eq] at h
  cases hw : c.isWhitespace
  · rfl
  · exfalso
    simp only [Char.isWhitespace, Bool.or_eq_true, decide_eq_true_eq] at hw
    rcases hw with ((rfl | rfl) | rfl) | rfl <;> revert h <;> decide

/-- A digit is not whitespace. -/
theorem isDigit_not_ws {c : Char} (h : c.isDigit = true) :
    c.isWhitespace = false := by
  simp only [Char.isDigit, Bool.and_eq_true, decide_eq_true_eq] at h
  cases hw : c.isWhitespace
  · rfl
  · exfalso
    simp only [Char.isWhitespace, Bool.or_eq_true, decide_eq_true_eq] at hw
    rcases hw with ((rfl | rfl) | rfl) | rfl <;> revert h <;> decide

/-- An uppercase letter is not a digit. -/
theorem isUpper_not_digit {c : Char} (h : c.isUpper = true) :
    c.isDigit = false := by
  simp only [Char.isUpper, Bool.and_eq_true, decide_eq_true_eq] at h
  cases hd : c.isDigit
  · rfl
  · exfalso
    simp only [Char.isDigit, Bool.and_eq_true, decide_eq_true_eq] at hd
    have h1 : (65 : UInt32) ≤ c.val := h.1
    have h2 : c.val ≤ (57 : UInt32) := hd.2
    exact absurd (UInt32.le_trans h1 h2) (by decide)

/-- An uppercase letter is a word character. -/
theorem isUpper_word {c : Char} (h : c.isUpper = true) :
    isWordChar c = true := by
  simp [isWordChar, Char.isAlphanum, Char.isAlpha, h]

/-- A digit is a word character. -/
theorem isDigit_word {c : Char} (h : c.isDigit = true) :
    isWordChar c = true := by
  simp [isWordChar, Char.isAlphanum, h]

end GMaps


namespace GMaps

/-- A true `stateZipTailBase` match contains no comma after its leading
one: everything after the head is whitespace, uppercase letters, digits or
a final newline. -/
theorem stateZipTailBase_no_comma :
    ∀ xs : List Char, stateZipTailBase xs = true → ',' ∉ xs.drop 1 := by
  intro xs h
  unfold stateZipTailBase at h
  split at h
  rotate_left
  · exact absurd h (by simp)
  rename_i rest
  split at h
  rotate_left
  · exact absurd h (by simp)
  rename_i a b r2 heq
  by_cases hab : a.isUpper && b.isUpper
  rotate_left
  · rw [if_neg hab] at h
    exact absurd h (by simp)
  rw [if_pos hab] at h
  split at h
  rotate_left
  · exact absurd h (by simp)
  rename_i d1 d2 d3 d4 d5 r4 heq2
  simp only [Bool.and_eq_true, Bool.or_eq_true, decide_eq_true_eq] at h hab
  simp only [List.drop_succ_cons, List.drop_zero]
  intro hmem
  rw [← List.takeWhile_append_dropWhile (p := Char.isWhitespace) (l := rest), heq] at hmem
  rcases List.mem_append.mp hmem with hm | hm
  · exact absurd (List.mem_takeWhile_imp hm) (by decide)
  rcases List.mem_cons.mp hm with he | hm
  · rw [← he] at hab
    exact absurd hab.1 (by decide)
  rcases List.mem_cons.mp hm with he | hm
  · rw [← he] at hab
    exact absurd hab.2 (by decide)
  rw [← List.takeWhile_append_dropWhile (p := Char.isWhitespace) (l := r2), heq2] at hm
  rcases List.mem_append.mp hm with hm2 | hm2
  · exact absurd (List.mem_takeWhile_imp hm2) (by decide)
  rcases List.mem_cons.mp hm2 with he | hm2
  · rw [← he] at h
    exact absurd h.1.1.1.1.1 (by decide)
  rcases List.mem_cons.mp hm2 with he | hm2
  · rw [← he] at h
    exact absurd h.1.1.1.1.2 (by decide)
  rcases List.mem_cons.mp hm2 with he | hm2
  · rw [← he] at h
    exact absurd h.1.1.1.2 (by decide)
  rcases List.mem_cons.mp hm2 with he | hm2
  · rw [← he] at h
    exact absurd h.1.1.2 (by decide)
  rcases List.mem_cons.mp hm2 with he | hm2
  · rw [← he] at h
    exact absurd h.1.2 (by decide)
  rcases h.2 with h4 | h4 <;> rw [h4] at hm2
  · exact absurd hm2 (List.not_mem_nil _)
  · rcases List.mem_cons.mp hm2 with he | hm2
    · exact absurd he (by decide)
    · exact absurd hm2 (List.not_mem_nil _)

/-- A true `stateZipTailImproved` match contains no comma after its leading
one. -/
theorem stateZipTailImproved_no_comma :
    ∀ xs : List Char, stateZipTailImproved xs = true → ',' ∉ xs.drop 1 := by
  intro xs h
  unfold stateZipTailImproved at h
  split at h
  rotate_left
  · exact absurd h (by simp)
  rename_i rest
  split at h
  rotate_left
  · exact absurd h (by simp)
  rename_i a b r2 heq
  by_cases hab : a.isUpper && b.isUpper
  rotate_left
  · rw [if_neg hab] at h
    exact absurd h (by simp)
  rw [if_pos hab] at h
  split at h
  rotate_left
  · exact absurd h (by simp)
  rename_i d1 d2 d3 d4 d5 r4 heq2
  simp only [Bool.and_eq_true, decide_eq_true_eq] at h hab
  obtain ⟨hd, hr4⟩ := h
  simp only [List.drop_succ_cons, List.drop_zero]
  intro hmem
  rw [← List.takeWhile_append_dropWhile (p := Char.isWhitespace) (l := rest), heq] at hmem
  rcases List.mem_append.mp hmem with hm | hm
  · exact absurd (List.mem_takeWhile_imp hm) (by decide)
  rcases List.mem_cons.mp hm with he | hm
  · rw [← he] at hab
    exact absurd hab.1 (by decide)
  rcases List.mem_cons.mp hm with he | hm
  · rw [← he] at hab
    exact absurd hab.2 (by decide)
  rw [← List.takeWhile_append_dropWhile (p := Char.isWhitespace) (l := r2), heq2] at hm
  rcases List.mem_append.mp hm with hm2 | hm2
  · exact absurd (List.mem_takeWhile_imp hm2) (by decide)
  rcases List.mem_cons.mp hm2 with he | hm2
  · rw [← he] at hd
    exact absurd hd.1.1.1.1 (by decide)
  rcases List.mem_cons.mp hm2 with he | hm2
  · rw [← he] at hd
    exact absurd hd.1.1.1.2 (by decide)
  rcases List.mem_cons.mp hm2 with he | hm2
  · rw [← he] at hd
    exact absurd hd.1.1.2 (by decide)
  rcases List.mem_cons.mp hm2 with he | hm2
  · rw [← he] at hd
    exact absurd hd.1.2 (by decide)
  rcases List.mem_cons.mp hm2 with he | hm2
  · rw [← he] at hd
    exact absurd hd.2 (by decide)
  revert hr4
  split
  · rename_i e1 e2 e3 e4 r5
    intro hr4
    simp only [Bool.and_eq_true, decide_eq_true_eq, List.all_eq_true] at hr4
    rcases List.mem_cons.mp hm2 with he | hm3
    · exact absurd he (by decide)
    rcases List.mem_cons.mp hm3 with he | hm3
    · rw [← he] at hr4
      exact absurd hr4.1.1.1.1 (by decide)
    rcases List.mem_cons.mp hm3 with he | hm3
    · rw [← he] at hr4
      exact absurd hr4.1.1.1.2 (by decide)
    rcases List.mem_cons.mp hm3 with he | hm3
    · rw [← he] at hr4
      exact absurd hr4.1.1.2 (by decide)
    rcases List.mem_cons.mp hm3 with he | hm3
    · rw [← he] at hr4
      exact absurd hr4.1.2 (by decide)
    · exact absurd (hr4.2 ',' hm3) (by decide)
  · intro hr4
    simp only [List.all_eq_true] at hr4
    exact absurd (hr4 ',' hm2) (by decide)

/-- `re.sub` with an end-anchored pattern whose matches contain a comma
only at their head deletes exactly the matching suffix. -/
theorem subTail_append {tailFn : List Char → Bool}
    (hT : ∀ xs, tailFn xs = true → ',' ∉ xs.drop 1)
    (p sfx : List Char) (hsfx : tailFn sfx = true) (hmem : ',' ∈ sfx)
    (hhd : sfx ≠ []) :
    subTail tailFn (p ++ sfx) = p := by
  induction p with
  | nil =>
    rcases sfx with _ | ⟨c, cs⟩
    · exact absurd rfl hhd
    · rw [List.nil_append, subTail, if_pos hsfx]
  | cons c cs ih =>
    have hfalse : tailFn (c :: (cs ++ sfx)) = false := by
      cases hv : tailFn (c :: (cs ++ sfx))
      · rfl
      · exfalso
        have := hT _ hv
        simp only [List.drop_succ_cons, List.drop_zero] at this
        exact this (List.mem_append_right _ hmem)
    rw [List.cons_append, subTail, if_neg (by simp [hfalse]), ih]

/-- When no suffix of the address matches the pattern, `re.sub` leaves the
address unchanged. -/
theorem subTail_eq_self {tailFn : List Char → Bool} :
    ∀ l : List Char, (∀ n, n < l.length → tailFn (l.drop n) = false) →
      subTail tailFn l = l := by
  intro l
  induction l with
  | nil => intro h; rfl
  | cons c cs ih =>
    intro h
    have h0 := h 0 (by simp)
    rw [List.drop_zero] at h0
    rw [subTail, if_neg (by simp [h0]), ih fun n hn => ?_]
    have := h (n + 1) (by simpa using hn)
    simpa using this

/-- The constructed `", XX ddddd"` suffix matches the base scraper's
trailing pattern. -/
theorem stateZipTailBase_sfx (x1 x2 za zb zc zd ze : Char)
    (hx1 : x1.isUpper = true) (hx2 : x2.isUpper = true)
    (hza : za.isDigit = true) (hzb : zb.isDigit = true) (hzc : zc.isDigit = true)
    (hzd : zd.isDigit = true) (hze : ze.isDigit = true) :
    stateZipTailBase (',' :: ' ' :: x1 :: x2 :: ' ' :: [za, zb, zc, zd, ze]) = true := by
  simp [stateZipTailBase, List.dropWhile_cons, isUpper_not_ws hx1, isDigit_not_ws hza,
    hx1, hx2, hza, hzb, hzc, hzd, hze,
    show (' ' : Char).isWhitespace = true from by decide]

/-- The constructed `", XX ddddd"` suffix matches the improved scraper's
trailing pattern. -/
theorem stateZipTailImproved_sfx (x1 x2 za zb zc zd ze : Char)
    (hx1 : x1.isUpper = true) (hx2 : x2.isUpper = true)
    (hza : za.isDigit = true) (hzb : zb.isDigit = true) (hzc : zc.isDigit = true)
    (hzd : zd.isDigit = true) (hze : ze.isDigit = true) :
    stateZipTailImproved (',' :: ' ' :: x1 :: x2 :: ' ' :: [za, zb, zc, zd, ze]) = true := by
  simp [stateZipTailImproved, List.dropWhile_cons, isUpper_not_ws hx1, isDigit_not_ws hza,
    hx1, hx2, hza, hzb, hzc, hzd, hze,
    show (' ' : Char).isWhitespace = true from by decide]

/-- On an address ending in `", XX ddddd"`, the base scraper's end-anchored
ZIP search finds exactly the trailing five digits. -/
theorem searchZipEnd_append_sfx (p : List Char) (x1 x2 za zb zc zd ze : Char)
    (hza : za.isDigit = true) (hzb : zb.isDigit = true) (hzc : zc.isDigit = true)
    (hzd : zd.isDigit = true) (hze : ze.isDigit = true) :
    searchZipEnd (p ++ (',' :: ' ' :: x1 :: x2 :: ' ' :: [za, zb, zc, zd, ze])) =
      some [za, zb, zc, zd, ze] := by
  have hrev : (p ++ (',' :: ' ' :: x1 :: x2 :: ' ' :: [za, zb, zc, zd, ze])).reverse =
      ze :: zd :: zc :: zb :: za :: ' ' :: x2 :: x1 :: ' ' :: ',' :: p.reverse := by
    simp
  rw [searchZipEnd, hrev, if_neg (by
    simp only [List.head?_cons, Option.some.injEq]
    exact Char.ne_of_pred hze (by decide))]
  unfold zipEndCore
  rw [hrev]
  simp [hza, hzb, hzc, hzd, hze, show isWordChar ' ' = false from by decide]

/-- Scanning the bare `", XX ddddd"` suffix always yields the five digits,
whatever word-flag the scan enters with. -/
theorem scanPostal_sfx (x1 x2 za zb zc zd ze : Char)
    (hx1 : x1.isUpper = true) (hx2 : x2.isUpper = true)
    (hza : za.isDigit = true) (hzb : zb.isDigit = true) (hzc : zc.isDigit = true)
    (hzd : zd.isDigit = true) (hze : ze.isDigit = true) :
    ∀ prev : Bool,
      scanPostal prev (',' :: ' ' :: x1 :: x2 :: ' ' :: [za, zb, zc, zd, ze]) =
        some [za, zb, zc, zd, ze] := by
  intro prev
  cases prev <;>
    simp [scanPostal, matchPostalAt,
      show (',' : Char).isDigit = false from by decide,
      show (' ' : Char).isDigit = false from by decide,
      isUpper_not_digit hx1, isUpper_not_digit hx2,
      isUpper_word hx1, isUpper_word hx2,
      show isWordChar ',' = false from by decide,
      show isWordChar ' ' = false from by decide,
      hza, hzb, hzc, hzd, hze]

/-- Appending the `", XX ddddd"` suffix cannot turn a failed postal-token
attempt into a successful one: the comma blocks every window crossing the
boundary. -/
theorem matchPostalAt_append_sfx (x1 x2 za zb zc zd ze : Char) :
    ∀ t : List Char, matchPostalAt t = none →
      matchPostalAt (t ++ (',' :: ' ' :: x1 :: x2 :: ' ' :: [za, zb, zc, zd, ze])) = none := by
  have hc : (',' : Char).isDigit = false := by decide
  intro t h
  rcases t with _ | ⟨a, t⟩
  · simp [matchPostalAt, hc]
  rcases t with _ | ⟨b, t⟩
  · simp [matchPostalAt, hc]
  rcases t with _ | ⟨c, t⟩
  · simp [matchPostalAt, hc]
  rcases t with _ | ⟨d, t⟩
  · simp [matchPostalAt, hc]
  rcases t with _ | ⟨e, rest⟩
  · simp [matchPostalAt, hc]
  rw [show (a :: b :: c :: d :: e :: rest) ++
        (',' :: ' ' :: x1 :: x2 :: ' ' :: [za, zb, zc, zd, ze]) =
      a :: b :: c :: d :: e :: (rest ++
        (',' :: ' ' :: x1 :: x2 :: ' ' :: [za, zb, zc, zd, ze])) from by simp]
  simp only [matchPostalAt] at h ⊢
  by_cases hd : a.isDigit && b.isDigit && c.isDigit && d.isDigit && e.isDigit
  rotate_left
  · rw [if_neg hd]
  rw [if_pos hd] at h ⊢
  rcases rest with _ | ⟨r, rs⟩
  · simp at h
  rw [List.cons_append]
  dsimp only at h ⊢
  by_cases hr : r = '-'
  · exfalso
    rw [if_pos hr] at h
    rcases rs with _ | ⟨s1, rs⟩
    · simp at h
    rcases rs with _ | ⟨s2, rs⟩
    · simp at h
    rcases rs with _ | ⟨s3, rs⟩
    · simp at h
    rcases rs with _ | ⟨s4, rs⟩
    · simp at h
    revert h
    dsimp only
    split <;> simp
  · rw [if_neg hr] at h ⊢
    by_cases hw : isWordChar r
    · rw [if_pos hw]
    · rw [if_neg hw] at h
      cases h

/-- When the scan fails on the whole prefix, scanning the prefix with the
`", XX ddddd"` suffix appended reaches the suffix and returns the trailing
five digits. -/
theorem scanPostal_append_none (x1 x2 za zb zc zd ze : Char)
    (hx1 : x1.isUpper = true) (hx2 : x2.isUpper = true)
    (hza : za.isDigit = true) (hzb : zb.isDigit = true) (hzc : zc.isDigit = true)
    (hzd : zd.isDigit = true) (hze : ze.isDigit = true) :
    ∀ (l : List Char) (prev : Bool), scanPostal prev l = none →
      scanPostal prev (l ++ (',' :: ' ' :: x1 :: x2 :: ' ' :: [za, zb, zc, zd, ze])) =
        some [za, zb, zc, zd, ze] := by
  intro l
  induction l with
  | nil =>
    intro prev h
    rw [List.nil_append]
    exact scanPostal_sfx x1 x2 za zb zc zd ze hx1 hx2 hza hzb hzc hzd hze prev
  | cons c cs ih =>
    intro prev h
    simp only [scanPostal] at h
    rcases hatt : (if prev = true then none else matchPostalAt (c :: cs)) with _ | m
    rotate_left
    · rw [hatt] at h
      dsimp only at h
      cases h
    · rw [hatt] at h
      dsimp only at h
      rw [List.cons_append]
      simp only [scanPostal]
      have hatt2 : (if prev = true then none
          else matchPostalAt
            (c :: (cs ++ (',' :: ' ' :: x1 :: x2 :: ' ' :: [za, zb, zc, zd, ze])))) = none := by
        cases prev
        · rw [if_neg (by simp)] at hatt ⊢
          rw [← List.cons_append]
          exact matchPostalAt_append_sfx x1 x2 za zb zc zd ze (c :: cs) hatt
        · rw [if_pos rfl]
      rw [hatt2]
      dsimp only
      exact ih (isWordChar c) h

end GMaps

/-- C5 counterexample: on `"12345 Main St, DC 20001"` — which ends with the
claimed `', XX 99999'` pattern — the improved variant's unanchored search
returns the first token `"12345"` instead of the trailing ZIP `"20001"`
(the base variant's end-anchored search behaves as claimed). -/
theorem C5_improved_earlier_token_counterexample :
    ImprovedScraper.parse_address "12345 Main St, DC 20001" =
      [("postal_code", "12345"), ("street", "12345 Main St")] ∧
    ("12345" : String) ≠ "20001" ∧
    BaseScraper.parse_address "12345 Main St, DC 20001" =
      [("postal_code", "20001"), ("street", "12345 Main St")] := by
  refine ⟨by decide, by decide, by decide⟩

/-- C5 amended: for every address of the form `prefix ++ ", XX ddddd"`
(two uppercase letters, five digits), the base scraper's `parse_address`
returns `postal_code` equal to those five digits and `street` equal to the
prefix stripped; the improved variant returns the same result whenever its
unanchored token search finds nothing inside the prefix — otherwise its
`postal_code` is that earlier first token, not the trailing ZIP. -/
theorem C5_parse_address_trailing_state_zip :
    ∀ (p : String) (x1 x2 za zb zc zd ze : Char),
      x1.isUpper = true → x2.isUpper = true →
      za.isDigit = true → zb.isDigit = true → zc.isDigit = true →
      zd.isDigit = true → ze.isDigit = true →
      ∀ address : String,
        address.data = p.data ++ (',' :: ' ' :: x1 :: x2 :: ' ' :: [za, zb, zc, zd, ze]) →
        BaseScraper.parse_address address =
          [("postal_code", String.mk [za, zb, zc, zd, ze]), ("street", GMaps.pyStripS p)] ∧
        (GMaps.scanPostal false p.data = none →
          ImprovedScraper.parse_address address =
            [("postal_code", String.mk [za, zb, zc, zd, ze]), ("street", GMaps.pyStripS p)]) := by
  intro p x1 x2 za zb zc zd ze hx1 hx2 hza hzb hzc hzd hze address haddr
  have hmem : ',' ∈ (',' :: ' ' :: x1 :: x2 :: ' ' :: [za, zb, zc, zd, ze]) :=
    List.mem_cons_self _ _
  constructor
  · simp only [BaseScraper.parse_address, haddr]
    rw [GMaps.searchZipEnd_append_sfx p.data x1 x2 za zb zc zd ze hza hzb hzc hzd hze]
    rw [GMaps.subTail_append GMaps.stateZipTailBase_no_comma p.data _
      (GMaps.stateZipTailBase_sfx x1 x2 za zb zc zd ze hx1 hx2 hza hzb hzc hzd hze)
      hmem (by simp)]
  · intro hnone
    simp only [ImprovedScraper.parse_address, haddr]
    rw [GMaps.scanPostal_append_none x1 x2 za zb zc zd ze hx1 hx2 hza hzb hzc hzd hze
      p.data false hnone]
    rw [GMaps.subTail_append GMaps.stateZipTailImproved_no_comma p.data _
      (GMaps.stateZipTailImproved_sfx x1 x2 za zb zc zd ze hx1 hx2 hza hzb hzc hzd hze)
      hmem (by simp)]

/-- C5 witness: the amended theorem applied to the specification's own
scenario `"123 Main St, Washington, DC 20001"`. -/
theorem C5_parse_address_trailing_state_zip_witness :
    BaseScraper.parse_address "123 Main St, Washington, DC 20001" =
      [("postal_code", String.mk ['2', '0', '0', '0', '1']),
       ("street", GMaps.pyStripS "123 Main St, Washington")] ∧
    ImprovedScraper.parse_address "123 Main St, Washington, DC 20001" =
      [("postal_code", String.mk ['2', '0', '0', '0', '1']),
       ("street", GMaps.pyStripS "123 Main St, Washington")] :=
  have h := C5_parse_address_trailing_state_zip "123 Main St, Washington" 'D' 'C'
    '2' '0' '0' '0' '1' (by decide) (by decide) (by decide) (by decide) (by decide)
    (by decide) (by decide) "123 Main St, Washington, DC 20001" (by decide)
  ⟨h.1, h.2 (by decide)⟩

/-- C9 counterexample: `" 12345 Main St"` contains a word-bounded 5-digit
run and does not end with a state+ZIP suffix, yet the returned street is
the stripped `"12345 Main St"`, not the raw input unchanged — the code
strips the `re.sub` result even when the sub replaced nothing. -/
theorem C9_street_stripped_counterexample :
    ImprovedScraper.parse_address " 12345 Main St" =
      [("postal_code", "12345"), ("street", "12345 Main St")] ∧
    ("12345 Main St" : String) ≠ " 12345 Main St" ∧
    (∀ n, n < (" 12345 Main St" : String).data.length →
      GMaps.stateZipTailImproved ((" 12345 Main St" : String).data.drop n) = false) := by
  refine ⟨by decide, by decide, by decide⟩

/-- C9 amended: whenever the improved variant's token search matches and no
position of the address starts a trailing `', XX ZIP[-ZIP4]'` match,
`parse_address` reports `postal_code` equal to the first matched token and
`street` equal to the raw input stripped of surrounding whitespace (hence
unchanged exactly when the input has none); the matched token is not
removed from the street. -/
theorem C9_parse_address_untouched_street :
    ∀ (address : String) (tok : List Char),
      GMaps.scanPostal false address.data = some tok →
      (∀ n, n < address.data.length →
        GMaps.stateZipTailImproved (address.data.drop n) = false) →
      ImprovedScraper.parse_address address =
        [("postal_code", String.mk tok), ("street", GMaps.pyStripS address)] := by
  intro address tok htok hnosfx
  simp only [ImprovedScraper.parse_address]
  rw [htok, GMaps.subTail_eq_self address.data hnosfx]

/-- C9 witness: the amended theorem applied to `"12345 Main St"`. -/
theorem C9_parse_address_untouched_street_witness :
    ImprovedScraper.parse_address "12345 Main St" =
      [("postal_code", String.mk ['1', '2', '3', '4', '5']),
       ("street", GMaps.pyStripS "12345 Main St")] :=
  C9_parse_address_untouched_street "12345 Main St" ['1', '2', '3', '4', '5']
    (by decide) (by decide)
